import Mathlib

/-!
Verification of the prayer-time computation core of project_aroundtheclock.

The Python module `src/aroundtheclock/prayertimes.py` is embedded shallowly:
Python floats are idealised as real numbers, `datetime.datetime` values become
a `DateTime` structure, `datetime.timedelta` arithmetic becomes real arithmetic
on a Julian-day timeline (units: days), and fallible computations (dictionary
lookups raising `KeyError`, `math.acos` raising a `ValueError` domain error)
return `Except PrayerError`.
-/

namespace AroundTheClock

open Real

/-- Gregorian calendar instant mirroring the fields of Python's
`datetime.datetime` used by the program. -/
structure DateTime where
  year : ℕ
  month : ℕ
  day : ℕ
  hour : ℕ
  minute : ℕ
  second : ℕ
  microsecond : ℕ
deriving DecidableEq, Repr

/-- Field ranges accepted by Python's `datetime` constructor (day upper bound
relaxed to 31 independently of the month). -/
def DateTime.Valid (dt : DateTime) : Prop :=
  1 ≤ dt.year ∧ dt.year ≤ 9999 ∧ 1 ≤ dt.month ∧ dt.month ≤ 12 ∧
    1 ≤ dt.day ∧ dt.day ≤ 31 ∧ dt.hour ≤ 23 ∧ dt.minute ≤ 59 ∧
    dt.second ≤ 59 ∧ dt.microsecond ≤ 999999

instance (dt : DateTime) : Decidable dt.Valid := by
  unfold DateTime.Valid; infer_instance

/-- The time-of-day components are all zero, i.e. the datetime denotes a plain
calendar date the way the program constructs them
(`dt.datetime(t.year, t.month, t.day)`). -/
def DateTime.IsMidnight (dt : DateTime) : Prop :=
  dt.hour = 0 ∧ dt.minute = 0 ∧ dt.second = 0 ∧ dt.microsecond = 0

instance (dt : DateTime) : Decidable dt.IsMidnight := by
  unfold DateTime.IsMidnight; infer_instance

/-- The midnight instant of the calendar date of `dt`. -/
def dateAtMidnight (dt : DateTime) : DateTime :=
  ⟨dt.year, dt.month, dt.day, 0, 0, 0, 0⟩

/-- Gregorian leap-year rule, as in Python's `calendar.isleap`. -/
def isLeap (y : ℕ) : Bool :=
  (y % 4 == 0 && y % 100 != 0) || y % 400 == 0

/-- Number of days in a Gregorian month. -/
def daysInMonth (y m : ℕ) : ℕ :=
  if m = 2 then (if isLeap y then 29 else 28)
  else if m = 4 ∨ m = 6 ∨ m = 9 ∨ m = 11 then 30
  else 31

/-- The calendar successor day, preserving the time-of-day components; this is
`date + datetime.timedelta(days=1)`. -/
def nextDay (dt : DateTime) : DateTime :=
  if dt.day < daysInMonth dt.year dt.month then
    { dt with day := dt.day + 1 }
  else if dt.month < 12 then
    { dt with month := dt.month + 1, day := 1 }
  else
    { dt with year := dt.year + 1, month := 1, day := 1 }

/-- Julian date of a datetime, embedding `julian.to_jd` (the dependency used by
`_julianEquation`): the standard Gregorian-calendar Julian-day-number formula
plus the time-of-day fraction.  The repository's regression test
`testJulianEquation_standardDate_calculateCorrectly` pins
`to_jd(2019-02-03) = 2458517.5`, which this definition reproduces. -/
def julianDay (dt : DateTime) : ℚ :=
  let a : ℤ := ⌊((14 : ℚ) - (dt.month : ℚ)) / 12⌋
  let y : ℚ := (dt.year : ℚ) + 4800 - (a : ℚ)
  let m : ℚ := (dt.month : ℚ) + 12 * (a : ℚ) - 3
  let jdn : ℚ := (dt.day : ℚ) + (⌊(153 * m + 2) / 5⌋ : ℤ) + 365 * y +
    (⌊y / 4⌋ : ℤ) - (⌊y / 100⌋ : ℤ) + (⌊y / 400⌋ : ℤ) - 32045
  jdn + ((dt.hour : ℚ) - 12) / 24 + (dt.minute : ℚ) / 1440 +
    (dt.second : ℚ) / 86400 + (dt.microsecond : ℚ) / 86400000000

noncomputable section

/-- Position of a datetime on the real timeline, in days (its Julian date). -/
def instant (dt : DateTime) : ℝ := ((julianDay dt : ℚ) : ℝ)

/-- Python's float modulo: `x % y = x - y * floor (x / y)`. -/
def realMod (x y : ℝ) : ℝ := x - y * (⌊x / y⌋ : ℤ)

/-- Python `math.radians`. -/
def radians (x : ℝ) : ℝ := x * π / 180

/-- Python `math.degrees`. -/
def degrees (x : ℝ) : ℝ := x * 180 / π

/-- Python `math.atan2`. -/
def atan2 (y x : ℝ) : ℝ :=
  if 0 < x then arctan (y / x)
  else if x < 0 then
    (if 0 ≤ y then arctan (y / x) + π else arctan (y / x) - π)
  else
    (if 0 < y then π / 2 else if y < 0 then -(π / 2) else 0)

/-- The body of `_sunEquation` as a function of the Julian date value
`_julianEquation(date)`: returns `(declination, equationOfTime)`. -/
def sunEquationJD (jdval : ℝ) : ℝ × ℝ :=
  let d : ℝ := jdval - 2451545.0
  let g := radians (realMod (357.529 + 0.98560028 * d) 360)
  let q := radians (realMod (280.459 + 0.98564736 * d) 360)
  let L := radians (degrees q + 1.915 * sin g + 0.020 * sin (2 * g))
  let e := radians (realMod (23.439 - 0.00000036 * d) 360)
  let RA := degrees (atan2 (cos e * sin L) (cos L)) / 15
  (degrees (arcsin (sin e * sin L)), degrees q / 15 - realMod RA 24)

/-- `_sunEquation(date)`: declination of the sun (degrees) and the equation of
time (hours) for the given datetime. -/
def sunEquation (dt : DateTime) : ℝ × ℝ := sunEquationJD (instant dt)

/-- Failures of the computation: unknown convention keys (Python `KeyError`
from the dictionary lookups, carrying the offending key) and trigonometric
domain errors (Python `ValueError` from `math.acos`). -/
inductive PrayerError where
  | invalidFajrIshaConvention (key : String)
  | invalidAsrConvention (key : String)
  | domainError
deriving DecidableEq, Repr

/-- The argument handed to `acos` inside `_horizonEquation`. -/
def horizonArg (angle latitude declination : ℝ) : ℝ :=
  (-sin (radians angle) - sin (radians latitude) * sin (radians declination)) /
    (cos (radians latitude) * cos (radians declination))

/-- `_horizonEquation(angle, latitude, declination)`: duration, in hours, for
the sun to travel from its highest point to `angle` degrees below the horizon.
Returns a domain error exactly when `acos` would raise in Python. -/
def horizonEquation (angle latitude declination : ℝ) : Except PrayerError ℝ :=
  if -1 ≤ horizonArg angle latitude declination ∧
      horizonArg angle latitude declination ≤ 1 then
    .ok (1 / 15 * degrees (arccos (horizonArg angle latitude declination)))
  else
    .error .domainError

/-- The argument handed to `acos` inside `_asrEquation`; `acot x` is the
Python lambda `atan(1/x)`. -/
def asrArg (shadowLength latitude declination : ℝ) : ℝ :=
  (sin (arctan (1 / (shadowLength + tan (radians latitude - radians declination)))) -
      sin (radians latitude) * sin (radians declination)) /
    (cos (radians latitude) * cos (radians declination))

/-- `_asrEquation(shadowLength, latitude, declination)`: duration, in hours,
for an object's shadow to reach `shadowLength` times its length past the noon
shadow. -/
def asrEquation (shadowLength latitude declination : ℝ) : Except PrayerError ℝ :=
  if -1 ≤ asrArg shadowLength latitude declination ∧
      asrArg shadowLength latitude declination ≤ 1 then
    .ok (1 / 15 * degrees (arccos (asrArg shadowLength latitude declination)))
  else
    .error .domainError

/-- `computeThuhr(date, longitude, timeZone)`:
`date + timedelta(hours = 12 + timeZone - (longitude/15 + equationOfTime))`. -/
def computeThuhr (date : DateTime) (longitude timeZone : ℝ) : ℝ :=
  instant date + (12 + timeZone - (longitude / 15 + (sunEquation date).2)) / 24

/-- `computeFajr(date, angle, latitude, thuhr) = thuhr - _horizonEquation(...)`. -/
def computeFajr (date : DateTime) (angle latitude thuhr : ℝ) :
    Except PrayerError ℝ :=
  match horizonEquation angle latitude (sunEquation date).1 with
  | .ok h => .ok (thuhr - h / 24)
  | .error e => .error e

/-- `computeAsr(date, shadowLength, latitude, thuhr) = thuhr + _asrEquation(...)`. -/
def computeAsr (date : DateTime) (shadowLength latitude thuhr : ℝ) :
    Except PrayerError ℝ :=
  match asrEquation shadowLength latitude (sunEquation date).1 with
  | .ok h => .ok (thuhr + h / 24)
  | .error e => .error e

/-- `computeMaghrib(date, latitude, thuhr, angle=0.833) = thuhr + _horizonEquation(...)`. -/
def computeMaghrib (date : DateTime) (latitude thuhr : ℝ) (angle : ℝ := 0.833) :
    Except PrayerError ℝ :=
  match horizonEquation angle latitude (sunEquation date).1 with
  | .ok h => .ok (thuhr + h / 24)
  | .error e => .error e

/-- `computeIsha(date, angle, latitude, thuhr) = thuhr + _horizonEquation(...)`. -/
def computeIsha (date : DateTime) (angle latitude thuhr : ℝ) :
    Except PrayerError ℝ :=
  match horizonEquation angle latitude (sunEquation date).1 with
  | .ok h => .ok (thuhr + h / 24)
  | .error e => .error e

/-- `computeIshaUmmAlQura(maghrib) = maghrib + timedelta(minutes=90)`
(90 minutes = 1/16 day). -/
def computeIshaUmmAlQura (maghrib : ℝ) : ℝ := maghrib + 90 / 1440

/-- The Isha entry of the `fajrIshaAngle` dictionary: either an angle or the
`"90min"` sentinel of the Umm al-Qura convention. -/
inductive IshaParam where
  | angle (a : ℝ)
  | minutes90
deriving DecidableEq

/-- The `fajrIshaAngle` dictionary of `computeAllPrayerTimes`; `none` models a
`KeyError` on lookup. -/
def fajrIshaAngle (key : String) : Option (ℝ × IshaParam) :=
  if key = "muslim_league" then some (18, .angle 17)
  else if key = "isna" then some (15, .angle 15)
  else if key = "egypt" then some (19.5, .angle 17.5)
  else if key = "umm_alqura" then some (18.5, .minutes90)
  else none

/-- The `asrShadow` dictionary of `computeAllPrayerTimes`. -/
def asrShadow (key : String) : Option ℝ :=
  if key = "standard" then some 1
  else if key = "hanafi" then some 2
  else none

/-- The ordered dictionary returned by `computeAllPrayerTimes`: one timestamp
(in days on the Julian timeline) per prayer, in the fixed key order
fajr, thuhr, asr, maghrib, isha. -/
structure PrayerTable where
  fajr : ℝ
  thuhr : ℝ
  asr : ℝ
  maghrib : ℝ
  isha : ℝ

/-- The `(name, timestamp)` entries of a table, in dictionary order. -/
def PrayerTable.toList (t : PrayerTable) : List (String × ℝ) :=
  [("fajr", t.fajr), ("thuhr", t.thuhr), ("asr", t.asr),
    ("maghrib", t.maghrib), ("isha", t.isha)]

/-- `computeAllPrayerTimes(date, coordinates, timezone, fajrIshaConvention,
asrConvention)`, with coordinates given as `(longitude, latitude)` and the
evaluation order of the source preserved: convention lookups first, then
thuhr, fajr, asr, maghrib and finally isha. -/
def computeAllPrayerTimes (date : DateTime) (coordinates : ℝ × ℝ)
    (timezone : ℝ) (fajrIshaConvention asrConvention : String) :
    Except PrayerError PrayerTable :=
  match fajrIshaAngle fajrIshaConvention with
  | none => .error (.invalidFajrIshaConvention fajrIshaConvention)
  | some (fAng, iAng) =>
    match asrShadow asrConvention with
    | none => .error (.invalidAsrConvention asrConvention)
    | some shadowLength =>
      let LON := coordinates.1
      let LAT := coordinates.2
      let thuhr := computeThuhr date LON timezone
      match computeFajr date fAng LAT thuhr with
      | .error e => .error e
      | .ok fajr =>
        match computeAsr date shadowLength LAT thuhr with
        | .error e => .error e
        | .ok asr =>
          match computeMaghrib date LAT thuhr with
          | .error e => .error e
          | .ok maghrib =>
            match iAng with
            | .minutes90 =>
              .ok ⟨fajr, thuhr, asr, maghrib, computeIshaUmmAlQura maghrib⟩
            | .angle a =>
              match computeIsha date a LAT thuhr with
              | .error e => .error e
              | .ok isha => .ok ⟨fajr, thuhr, asr, maghrib, isha⟩

/-- `computeDiff(p1, p2)`: the difference between two instants as
`(hours, minutes, seconds)` integers, mirroring the branch on `p2 > p1`,
`total_seconds()`, the two `divmod` calls and the `int(...)` truncations. -/
def computeDiff (p1 p2 : ℝ) : ℤ × ℤ × ℤ :=
  let diff := if p1 < p2 then p2 - p1 else p1 - p2
  let total := diff * 86400
  let hours : ℤ := ⌊total / 3600⌋
  let rem := total - 3600 * (hours : ℝ)
  let minutes : ℤ := ⌊rem / 60⌋
  let seconds := rem - 60 * (minutes : ℝ)
  (hours, minutes, ⌊seconds⌋)

/-- Modelled from the spec: `nextFivePrayers` (spec section 4.4) is imported by
`main.py` from `prayer.py` but its definition is absent from the sources, so it
is reconstructed from the specification's algorithm: compute today's and
tomorrow's tables, count today's entries strictly after `now`, drop the
`5 - remainingToday` earliest entries of today's table and keep only the
`5 - remainingToday` earliest entries of tomorrow's table, then concatenate.
`now` is a datetime; "today" is its calendar date. -/
def nextFivePrayers (coordinates : ℝ × ℝ) (timezone : ℝ)
    (fajrIshaConvention asrConvention : String) (now : DateTime) :
    Except PrayerError (List (String × ℝ)) :=
  let today := dateAtMidnight now
  match computeAllPrayerTimes today coordinates timezone fajrIshaConvention
      asrConvention with
  | .error e => .error e
  | .ok t =>
    match computeAllPrayerTimes (nextDay today) coordinates timezone
        fajrIshaConvention asrConvention with
    | .error e => .error e
    | .ok t2 =>
      let remaining := (t.toList.filter (fun p => instant now < p.2)).length
      .ok (t.toList.drop (5 - remaining) ++ t2.toList.take (5 - remaining))

/-- A single day's table is strictly increasing in the fixed key order. -/
def tableIncreasing (t : PrayerTable) : Prop :=
  t.fajr < t.thuhr ∧ t.thuhr < t.asr ∧ t.asr < t.maghrib ∧ t.maghrib < t.isha

/-- The computation returned a table and the table satisfies `P`. -/
def resultSatisfies (P : PrayerTable → Prop) :
    Except PrayerError PrayerTable → Prop
  | .ok t => P t
  | .error _ => False

end

section BasicLemmas

/-- Python float modulo is the identity on `[0, y)`. -/
lemma realMod_eq_self {x y : ℝ} (hy : 0 < y) (h0 : 0 ≤ x) (h1 : x < y) :
    realMod x y = x := by
  unfold realMod
  have : ⌊x / y⌋ = 0 := by
    rw [Int.floor_eq_zero_iff]
    constructor
    · positivity
    · rw [div_lt_one hy]; simpa using h1
  rw [this]; simp

lemma realMod_of_floor {x y : ℝ} (k : ℤ) (hk : ⌊x / y⌋ = k) :
    realMod x y = x - y * k := by
  unfold realMod; rw [hk]

lemma radians_degrees (x : ℝ) : radians (degrees x) = x := by
  unfold radians degrees
  field_simp

lemma degrees_radians (x : ℝ) : degrees (radians x) = x := by
  unfold radians degrees
  field_simp

lemma degrees_pos {x : ℝ} (hx : 0 < x) : 0 < degrees x := by
  unfold degrees
  positivity

lemma degrees_lt_degrees {x y : ℝ} (h : x < y) : degrees x < degrees y := by
  unfold degrees
  have hpi : (0:ℝ) < π := pi_pos
  gcongr

end BasicLemmas

section EquationLemmas

lemma horizonEquation_eq_ok {a lat dec : ℝ}
    (h : -1 ≤ horizonArg a lat dec ∧ horizonArg a lat dec ≤ 1) :
    horizonEquation a lat dec =
      .ok (1 / 15 * degrees (arccos (horizonArg a lat dec))) := by
  unfold horizonEquation; rw [if_pos h]

lemma horizonEquation_eq_error {a lat dec : ℝ}
    (h : ¬(-1 ≤ horizonArg a lat dec ∧ horizonArg a lat dec ≤ 1)) :
    horizonEquation a lat dec = .error .domainError := by
  unfold horizonEquation; rw [if_neg h]

lemma horizonEquation_ok_elim {a lat dec v : ℝ}
    (h : horizonEquation a lat dec = .ok v) :
    (-1 ≤ horizonArg a lat dec ∧ horizonArg a lat dec ≤ 1) ∧
      v = 1 / 15 * degrees (arccos (horizonArg a lat dec)) := by
  unfold horizonEquation at h
  split_ifs at h with hc
  exact ⟨hc, ((Except.ok.injEq _ _).mp h).symm⟩

lemma asrEquation_eq_ok {sha lat dec : ℝ}
    (h : -1 ≤ asrArg sha lat dec ∧ asrArg sha lat dec ≤ 1) :
    asrEquation sha lat dec =
      .ok (1 / 15 * degrees (arccos (asrArg sha lat dec))) := by
  unfold asrEquation; rw [if_pos h]

lemma asrEquation_ok_elim {sha lat dec v : ℝ}
    (h : asrEquation sha lat dec = .ok v) :
    (-1 ≤ asrArg sha lat dec ∧ asrArg sha lat dec ≤ 1) ∧
      v = 1 / 15 * degrees (arccos (asrArg sha lat dec)) := by
  unfold asrEquation at h
  split_ifs at h with hc
  exact ⟨hc, ((Except.ok.injEq _ _).mp h).symm⟩

/-- Durations produced by a successful horizon equation lie in `[0, 12]`
hours, since `arccos` has range `[0, π]`. -/
lemma horizonEquation_ok_bounds {a lat dec v : ℝ}
    (h : horizonEquation a lat dec = .ok v) : 0 ≤ v ∧ v ≤ 12 := by
  obtain ⟨-, hv⟩ := horizonEquation_ok_elim h
  subst hv
  have h0 : 0 ≤ arccos (horizonArg a lat dec) := arccos_nonneg _
  have hpi : arccos (horizonArg a lat dec) ≤ π := arccos_le_pi _
  have hpi0 : (0:ℝ) < π := pi_pos
  constructor
  · have : 0 ≤ degrees (arccos (horizonArg a lat dec)) := by
      unfold degrees; positivity
    linarith
  · have : degrees (arccos (horizonArg a lat dec)) ≤ 180 := by
      unfold degrees
      rw [div_le_iff₀ hpi0]
      nlinarith
    linarith

lemma asrEquation_ok_bounds {sha lat dec v : ℝ}
    (h : asrEquation sha lat dec = .ok v) : 0 ≤ v ∧ v ≤ 12 := by
  obtain ⟨-, hv⟩ := asrEquation_ok_elim h
  subst hv
  have h0 : 0 ≤ arccos (asrArg sha lat dec) := arccos_nonneg _
  have hpi : arccos (asrArg sha lat dec) ≤ π := arccos_le_pi _
  have hpi0 : (0:ℝ) < π := pi_pos
  constructor
  · have : 0 ≤ degrees (arccos (asrArg sha lat dec)) := by
      unfold degrees; positivity
    linarith
  · have : degrees (arccos (asrArg sha lat dec)) ≤ 180 := by
      unfold degrees
      rw [div_le_iff₀ hpi0]
      nlinarith
    linarith

end EquationLemmas

section ComputeAllLemmas

lemma computeFajr_ok_elim {date : DateTime} {a lat thuhr v : ℝ}
    (h : computeFajr date a lat thuhr = .ok v) :
    ∃ hF, horizonEquation a lat (sunEquation date).1 = .ok hF ∧
      v = thuhr - hF / 24 := by
  unfold computeFajr at h
  rcases hH : horizonEquation a lat (sunEquation date).1 with e | w <;> rw [hH] at h
  · exact absurd h (by simp)
  · exact ⟨w, rfl, ((Except.ok.injEq _ _).mp h).symm⟩

lemma computeAsr_ok_elim {date : DateTime} {sha lat thuhr v : ℝ}
    (h : computeAsr date sha lat thuhr = .ok v) :
    ∃ hA, asrEquation sha lat (sunEquation date).1 = .ok hA ∧
      v = thuhr + hA / 24 := by
  unfold computeAsr at h
  rcases hH : asrEquation sha lat (sunEquation date).1 with e | w <;> rw [hH] at h
  · exact absurd h (by simp)
  · exact ⟨w, rfl, ((Except.ok.injEq _ _).mp h).symm⟩

lemma computeMaghrib_ok_elim {date : DateTime} {lat thuhr a v : ℝ}
    (h : computeMaghrib date lat thuhr a = .ok v) :
    ∃ hM, horizonEquation a lat (sunEquation date).1 = .ok hM ∧
      v = thuhr + hM / 24 := by
  unfold computeMaghrib at h
  rcases hH : horizonEquation a lat (sunEquation date).1 with e | w <;> rw [hH] at h
  · exact absurd h (by simp)
  · exact ⟨w, rfl, ((Except.ok.injEq _ _).mp h).symm⟩

lemma computeIsha_ok_elim {date : DateTime} {a lat thuhr v : ℝ}
    (h : computeIsha date a lat thuhr = .ok v) :
    ∃ hI, horizonEquation a lat (sunEquation date).1 = .ok hI ∧
      v = thuhr + hI / 24 := by
  unfold computeIsha at h
  rcases hH : horizonEquation a lat (sunEquation date).1 with e | w <;> rw [hH] at h
  · exact absurd h (by simp)
  · exact ⟨w, rfl, ((Except.ok.injEq _ _).mp h).symm⟩

/-- Anatomy of a successful `computeAllPrayerTimes` run: both convention
lookups succeeded, all trigonometric sub-computations succeeded, and the five
entries are thuhr plus/minus the respective durations (in hours, divided by 24
to land on the day timeline). -/
lemma computeAll_ok_elim {date : DateTime} {LON LAT tz : ℝ} {fic ac : String}
    {t : PrayerTable}
    (h : computeAllPrayerTimes date (LON, LAT) tz fic ac = .ok t) :
    ∃ fAng iAng sha hF hA hM,
      fajrIshaAngle fic = some (fAng, iAng) ∧ asrShadow ac = some sha ∧
      horizonEquation fAng LAT (sunEquation date).1 = .ok hF ∧
      asrEquation sha LAT (sunEquation date).1 = .ok hA ∧
      horizonEquation 0.833 LAT (sunEquation date).1 = .ok hM ∧
      t.thuhr = computeThuhr date LON tz ∧
      t.fajr = t.thuhr - hF / 24 ∧
      t.asr = t.thuhr + hA / 24 ∧
      t.maghrib = t.thuhr + hM / 24 ∧
      ((iAng = IshaParam.minutes90 ∧ t.isha = t.maghrib + 90 / 1440) ∨
        (∃ aI hI, iAng = IshaParam.angle aI ∧
          horizonEquation aI LAT (sunEquation date).1 = .ok hI ∧
          t.isha = t.thuhr + hI / 24)) := by
  unfold computeAllPrayerTimes at h
  rcases hfa : fajrIshaAngle fic with - | ⟨fAng, iAng⟩ <;> rw [hfa] at h <;>
    dsimp only at h
  · exact absurd h (by simp)
  rcases hsh : asrShadow ac with - | sha <;> rw [hsh] at h <;> dsimp only at h
  · exact absurd h (by simp)
  rcases hF : computeFajr date fAng LAT (computeThuhr date LON tz) with e | fajr <;>
    rw [hF] at h <;> dsimp only at h
  · exact absurd h (by simp)
  rcases hA : computeAsr date sha LAT (computeThuhr date LON tz) with e | asr <;>
    rw [hA] at h <;> dsimp only at h
  · exact absurd h (by simp)
  rcases hM : computeMaghrib date LAT (computeThuhr date LON tz) with e | maghrib <;>
    rw [hM] at h <;> dsimp only at h
  · exact absurd h (by simp)
  obtain ⟨hFv, hFeq, hFval⟩ := computeFajr_ok_elim hF
  obtain ⟨hAv, hAeq, hAval⟩ := computeAsr_ok_elim hA
  obtain ⟨hMv, hMeq, hMval⟩ := computeMaghrib_ok_elim hM
  rcases iAng with aI | -
  · dsimp only at h
    rcases hI : computeIsha date aI LAT (computeThuhr date LON tz) with e | isha <;>
      rw [hI] at h <;> dsimp only at h
    · exact absurd h (by simp)
    obtain ⟨hIv, hIeq, hIval⟩ := computeIsha_ok_elim hI
    have ht : t = ⟨fajr, computeThuhr date LON tz, asr, maghrib, isha⟩ :=
      ((Except.ok.injEq _ _).mp h).symm
    exact ⟨fAng, IshaParam.angle aI, sha, hFv, hAv, hMv, rfl, rfl, hFeq, hAeq,
      hMeq, by simp [ht], by simp [ht, hFval], by simp [ht, hAval],
      by simp [ht, hMval],
      Or.inr ⟨aI, hIv, rfl, hIeq, by simp [ht, hIval]⟩⟩
  · dsimp only at h
    have ht : t = ⟨fajr, computeThuhr date LON tz, asr, maghrib,
        computeIshaUmmAlQura maghrib⟩ := ((Except.ok.injEq _ _).mp h).symm
    exact ⟨fAng, IshaParam.minutes90, sha, hFv, hAv, hMv, rfl, rfl, hFeq, hAeq,
      hMeq, by simp [ht], by simp [ht, hFval], by simp [ht, hAval],
      by simp [ht, hMval],
      Or.inl ⟨rfl, by simp [ht, computeIshaUmmAlQura]⟩⟩

/-- Builder for a successful run under the Umm al-Qura convention. -/
lemma computeAll_umm_ok {date : DateTime} {LON LAT tz : ℝ} {ac : String}
    {sha hF hA hM : ℝ}
    (hsh : asrShadow ac = some sha)
    (hFeq : horizonEquation 18.5 LAT (sunEquation date).1 = .ok hF)
    (hAeq : asrEquation sha LAT (sunEquation date).1 = .ok hA)
    (hMeq : horizonEquation 0.833 LAT (sunEquation date).1 = .ok hM) :
    computeAllPrayerTimes date (LON, LAT) tz "umm_alqura" ac =
      .ok ⟨computeThuhr date LON tz - hF / 24,
        computeThuhr date LON tz,
        computeThuhr date LON tz + hA / 24,
        computeThuhr date LON tz + hM / 24,
        computeThuhr date LON tz + hM / 24 + 90 / 1440⟩ := by
  have hfa : fajrIshaAngle "umm_alqura" = some (18.5, IshaParam.minutes90) := by
    simp [fajrIshaAngle]
  unfold computeAllPrayerTimes
  rw [hfa, hsh]
  dsimp only
  unfold computeFajr computeAsr computeMaghrib
  rw [hFeq, hAeq, hMeq]
  rfl

end ComputeAllLemmas

section DiffLemmas

lemma computeDiff_eq_abs (p1 p2 : ℝ) :
    computeDiff p1 p2 =
      (⌊|p1 - p2| * 86400 / 3600⌋,
        ⌊(|p1 - p2| * 86400 - 3600 * (⌊|p1 - p2| * 86400 / 3600⌋ : ℤ)) / 60⌋,
        ⌊|p1 - p2| * 86400 - 3600 * (⌊|p1 - p2| * 86400 / 3600⌋ : ℤ) -
          60 * (⌊(|p1 - p2| * 86400 -
            3600 * (⌊|p1 - p2| * 86400 / 3600⌋ : ℤ)) / 60⌋ : ℤ)⌋) := by
  have habs : (if p1 < p2 then p2 - p1 else p1 - p2) = |p1 - p2| := by
    rcases lt_or_le p1 p2 with h | h
    · rw [if_pos h, abs_of_neg (by linarith)]; ring
    · rw [if_neg (not_lt.mpr h), abs_of_nonneg (by linarith)]
  unfold computeDiff
  rw [habs]

end DiffLemmas

/-- C9: `computeDiff` is symmetric in its two arguments, and it equals the
absolute difference `|p1 - p2|` (in seconds) decomposed by floored division
into non-negative hours, then minutes and seconds from the remainders. -/
theorem claim_C9 (a b : ℝ) :
    computeDiff a b = computeDiff b a ∧
    computeDiff a b =
      (⌊|a - b| * 86400 / 3600⌋,
        ⌊(|a - b| * 86400 - 3600 * (⌊|a - b| * 86400 / 3600⌋ : ℤ)) / 60⌋,
        ⌊|a - b| * 86400 - 3600 * (⌊|a - b| * 86400 / 3600⌋ : ℤ) -
          60 * (⌊(|a - b| * 86400 -
            3600 * (⌊|a - b| * 86400 / 3600⌋ : ℤ)) / 60⌋ : ℤ)⌋) ∧
    0 ≤ (computeDiff a b).1 ∧ 0 ≤ (computeDiff a b).2.1 ∧
      0 ≤ (computeDiff a b).2.2 := by
  have key := computeDiff_eq_abs a b
  have hT : (0:ℝ) ≤ |a - b| * 86400 := by positivity
  have hh : (0:ℤ) ≤ ⌊|a - b| * 86400 / 3600⌋ :=
    Int.floor_nonneg.mpr (by positivity)
  have hrem : (0:ℝ) ≤ |a - b| * 86400 - 3600 * (⌊|a - b| * 86400 / 3600⌋ : ℤ) := by
    have := Int.floor_le (|a - b| * 86400 / 3600)
    nlinarith
  have hm : (0:ℤ) ≤ ⌊(|a - b| * 86400 - 3600 * (⌊|a - b| * 86400 / 3600⌋ : ℤ)) / 60⌋ :=
    Int.floor_nonneg.mpr (by positivity)
  have hrem2 : (0:ℝ) ≤ |a - b| * 86400 - 3600 * (⌊|a - b| * 86400 / 3600⌋ : ℤ) -
      60 * (⌊(|a - b| * 86400 - 3600 * (⌊|a - b| * 86400 / 3600⌋ : ℤ)) / 60⌋ : ℤ) := by
    have := Int.floor_le ((|a - b| * 86400 - 3600 * (⌊|a - b| * 86400 / 3600⌋ : ℤ)) / 60)
    nlinarith
  refine ⟨?_, key, ?_, ?_, ?_⟩
  · rw [key, computeDiff_eq_abs b a, abs_sub_comm]
  · rw [key]; exact hh
  · rw [key]; exact hm
  · rw [key]; exact Int.floor_nonneg.mpr hrem2

/-- C2: for a calendar date (a midnight datetime), `computeThuhr` returns the
date at midnight plus `(12 + timezone - (longitude/15 + equationOfTime))`
hours, where the equation of time is the second component of the solar
computation for that date. -/
theorem claim_C2 (dt : DateTime) (lon tz : ℝ) (h : dt.IsMidnight) :
    computeThuhr dt lon tz =
      instant (dateAtMidnight dt) +
        (12 + tz - (lon / 15 + (sunEquation dt).2)) / 24 := by
  rcases dt with ⟨y, mo, da, ho, mi, se, us⟩
  obtain ⟨h1, h2, h3, h4⟩ := h
  dsimp only at h1 h2 h3 h4
  subst h1; subst h2; subst h3; subst h4
  rfl

theorem claim_C2_witness :
    DateTime.IsMidnight ⟨2019, 1, 1, 0, 0, 0, 0⟩ ∧
      computeThuhr ⟨2019, 1, 1, 0, 0, 0, 0⟩ 50 3 =
        instant (dateAtMidnight ⟨2019, 1, 1, 0, 0, 0, 0⟩) +
          (12 + 3 - (50 / 15 + (sunEquation ⟨2019, 1, 1, 0, 0, 0, 0⟩).2)) / 24 :=
  ⟨by decide, claim_C2 ⟨2019, 1, 1, 0, 0, 0, 0⟩ 50 3 (by decide)⟩

section ConventionLemmas

lemma fajrIshaAngle_eq_none {fic : String}
    (h : fic ∉ (["muslim_league", "isna", "egypt", "umm_alqura"] : List String)) :
    fajrIshaAngle fic = none := by
  have h' : fic ≠ "muslim_league" ∧ fic ≠ "isna" ∧ fic ≠ "egypt" ∧
      fic ≠ "umm_alqura" := by simpa using h
  simp [fajrIshaAngle, h'.1, h'.2.1, h'.2.2.1, h'.2.2.2]

lemma asrShadow_eq_none {ac : String}
    (h : ac ∉ (["standard", "hanafi"] : List String)) : asrShadow ac = none := by
  have h' : ac ≠ "standard" ∧ ac ≠ "hanafi" := by simpa using h
  simp [asrShadow, h'.1, h'.2]

end ConventionLemmas

/-- C5: an unrecognized fajr/isha convention key makes `computeAllPrayerTimes`
fail with an error naming that key, uniformly in the date, coordinates and
timezone (so before and independently of any prayer computation, with no
default convention); with a recognized fajr/isha key, an unrecognized asr
convention key likewise fails naming the asr key. -/
theorem claim_C5 (date : DateTime) (coordinates : ℝ × ℝ) (tz : ℝ)
    (fic ac : String) :
    (fic ∉ (["muslim_league", "isna", "egypt", "umm_alqura"] : List String) →
      computeAllPrayerTimes date coordinates tz fic ac =
        .error (.invalidFajrIshaConvention fic)) ∧
    (fic ∈ (["muslim_league", "isna", "egypt", "umm_alqura"] : List String) →
      ac ∉ (["standard", "hanafi"] : List String) →
      computeAllPrayerTimes date coordinates tz fic ac =
        .error (.invalidAsrConvention ac)) := by
  constructor
  · intro h
    unfold computeAllPrayerTimes
    rw [fajrIshaAngle_eq_none h]
  · intro hin hax
    have h2 := asrShadow_eq_none hax
    have hin' : fic = "muslim_league" ∨ fic = "isna" ∨ fic = "egypt" ∨
        fic = "umm_alqura" := by simpa using hin
    unfold computeAllPrayerTimes
    rcases hin' with rfl | rfl | rfl | rfl
    · rw [(by simp [fajrIshaAngle] :
        fajrIshaAngle "muslim_league" = some (18, IshaParam.angle 17)), h2]
    · rw [(by simp [fajrIshaAngle] :
        fajrIshaAngle "isna" = some (15, IshaParam.angle 15)), h2]
    · rw [(by simp [fajrIshaAngle] :
        fajrIshaAngle "egypt" = some (19.5, IshaParam.angle 17.5)), h2]
    · rw [(by simp [fajrIshaAngle] :
        fajrIshaAngle "umm_alqura" = some (18.5, IshaParam.minutes90)), h2]

theorem claim_C5_witness :
    ("nosuchkey" ∉ (["muslim_league", "isna", "egypt", "umm_alqura"] : List String) ∧
      computeAllPrayerTimes ⟨2019, 1, 1, 0, 0, 0, 0⟩ (50, 26.6) 3 "nosuchkey"
          "standard" = .error (.invalidFajrIshaConvention "nosuchkey")) ∧
    ("umm_alqura" ∈ (["muslim_league", "isna", "egypt", "umm_alqura"] : List String) ∧
      "badasr" ∉ (["standard", "hanafi"] : List String) ∧
      computeAllPrayerTimes ⟨2019, 1, 1, 0, 0, 0, 0⟩ (50, 26.6) 3 "umm_alqura"
          "badasr" = .error (.invalidAsrConvention "badasr")) :=
  ⟨⟨by decide,
      (claim_C5 ⟨2019, 1, 1, 0, 0, 0, 0⟩ (50, 26.6) 3 "nosuchkey" "standard").1
        (by decide)⟩,
    ⟨by decide, by decide,
      (claim_C5 ⟨2019, 1, 1, 0, 0, 0, 0⟩ (50, 26.6) 3 "umm_alqura" "badasr").2
        (by decide) (by decide)⟩⟩

/-- C6: the horizon equation succeeds with a duration exactly when its arccos
argument lies in `[-1, 1]`, and fails with a domain error (no clamping)
exactly when the argument falls outside `[-1, 1]`. -/
theorem claim_C6 (a lat dec : ℝ) :
    ((-1 ≤ horizonArg a lat dec ∧ horizonArg a lat dec ≤ 1) →
      horizonEquation a lat dec =
        .ok (1 / 15 * degrees (arccos (horizonArg a lat dec)))) ∧
    (¬(-1 ≤ horizonArg a lat dec ∧ horizonArg a lat dec ≤ 1) →
      horizonEquation a lat dec = .error .domainError) :=
  ⟨fun h => horizonEquation_eq_ok h, fun h => horizonEquation_eq_error h⟩

theorem claim_C6_witness :
    (-1 ≤ horizonArg 0 0 0 ∧ horizonArg 0 0 0 ≤ 1) ∧
      horizonEquation 0 0 0 =
        .ok (1 / 15 * degrees (arccos (horizonArg 0 0 0))) := by
  have harg : -1 ≤ horizonArg 0 0 0 ∧ horizonArg 0 0 0 ≤ 1 := by
    norm_num [horizonArg, radians]
  exact ⟨harg, (claim_C6 0 0 0).1 harg⟩

/-- C7 (amended): the solar-position computation factors through the Julian
date of its argument, and the time-of-day enters exactly as the fractional-day
offset added to the Julian date of the midnight instant of the same calendar
date (so midnight invariance holds only for midnight inputs). -/
theorem claim_C7_amended (dt : DateTime) :
    sunEquation dt = sunEquationJD (instant (dateAtMidnight dt) +
      ((dt.hour : ℝ) / 24 + (dt.minute : ℝ) / 1440 + (dt.second : ℝ) / 86400 +
        (dt.microsecond : ℝ) / 86400000000)) := by
  unfold sunEquation
  congr 1
  unfold instant dateAtMidnight julianDay
  push_cast
  ring

/-- C10: whenever the horizon equation and the asr equation succeed (their
arccos arguments lie in `[-1, 1]`), the returned durations lie in `[0, 12]`
hours; consequently in every table produced by `computeAllPrayerTimes` fajr is
never later than thuhr, and asr, maghrib and isha are never earlier than
thuhr. -/
theorem claim_C10 (a lat dec sha lat2 dec2 : ℝ) (date : DateTime)
    (LON LAT tz : ℝ) (fic ac : String) (t : PrayerTable) (hH hA : ℝ)
    (h1 : horizonEquation a lat dec = .ok hH)
    (h2 : asrEquation sha lat2 dec2 = .ok hA)
    (h3 : computeAllPrayerTimes date (LON, LAT) tz fic ac = .ok t) :
    ((0 ≤ hH ∧ hH ≤ 12) ∧ (0 ≤ hA ∧ hA ≤ 12)) ∧
      (t.fajr ≤ t.thuhr ∧ t.thuhr ≤ t.asr ∧ t.thuhr ≤ t.maghrib ∧
        t.thuhr ≤ t.isha) := by
  refine ⟨⟨horizonEquation_ok_bounds h1, asrEquation_ok_bounds h2⟩, ?_⟩
  obtain ⟨fAng, iAng, sh, hF, hAv, hM, -, -, hFeq, hAeq, hMeq, hth, hfa, has,
    hmag, hisha⟩ := computeAll_ok_elim h3
  have hFb := horizonEquation_ok_bounds hFeq
  have hAb := asrEquation_ok_bounds hAeq
  have hMb := horizonEquation_ok_bounds hMeq
  refine ⟨by rw [hfa]; linarith [hFb.1], by rw [has]; linarith [hAb.1],
    by rw [hmag]; linarith [hMb.1], ?_⟩
  rcases hisha with ⟨-, hI⟩ | ⟨aI, hIv, -, hIeq, hI⟩
  · rw [hI, hmag]; linarith [hMb.1]
  · have hIb := horizonEquation_ok_bounds hIeq
    rw [hI]; linarith [hIb.1]

section NumericHelpers

lemma pi_lb : (3.141592 : ℝ) < π := pi_gt_d6

lemma pi_ub : π < 3.141593 := pi_lt_d6

lemma my_sin_ub {x hi : ℝ} (h : x ≤ hi) (hx : -1 ≤ x) (hhi : hi ≤ 1) :
    sin x ≤ hi - hi ^ 3 / 6 + hi ^ 4 * (5 / 96) := by
  have hpi2 : (1:ℝ) < π / 2 := by linarith [pi_lb]
  have h1 : sin x ≤ sin hi := by
    rcases eq_or_lt_of_le h with rfl | hlt
    · exact le_refl _
    · exact le_of_lt (sin_lt_sin_of_lt_of_le_pi_div_two (by linarith)
        (by linarith) hlt)
  have habs : |hi| ≤ 1 := abs_le.mpr ⟨by linarith, hhi⟩
  have h2 := (abs_le.mp (Real.sin_bound habs)).2
  have h3 : |hi| ^ 4 = hi ^ 4 := by
    rw [← abs_pow, abs_of_nonneg (by positivity)]
  rw [h3] at h2
  linarith

lemma my_sin_lb {x lo : ℝ} (h : lo ≤ x) (hlo : -1 ≤ lo) (hx : x ≤ 1) :
    lo - lo ^ 3 / 6 - lo ^ 4 * (5 / 96) ≤ sin x := by
  have hpi2 : (1:ℝ) < π / 2 := by linarith [pi_lb]
  have h1 : sin lo ≤ sin x := by
    rcases eq_or_lt_of_le h with rfl | hlt
    · exact le_refl _
    · exact le_of_lt (sin_lt_sin_of_lt_of_le_pi_div_two (by linarith)
        (by linarith) hlt)
  have habs : |lo| ≤ 1 := abs_le.mpr ⟨hlo, by linarith⟩
  have h2 := (abs_le.mp (Real.sin_bound habs)).1
  have h3 : |lo| ^ 4 = lo ^ 4 := by
    rw [← abs_pow, abs_of_nonneg (by positivity)]
  rw [h3] at h2
  linarith

lemma my_cos_lb {x b : ℝ} (h : |x| ≤ b) (hb : b ≤ 1) :
    1 - b ^ 2 / 2 - b ^ 4 * (5 / 96) ≤ cos x := by
  have hb0 : 0 ≤ b := le_trans (abs_nonneg x) h
  have h1 : cos b ≤ cos |x| :=
    cos_le_cos_of_nonneg_of_le_pi (abs_nonneg x) (by linarith [pi_lb]) h
  rw [cos_abs] at h1
  have habs : |b| ≤ 1 := abs_le.mpr ⟨by linarith, hb⟩
  have h2 := (abs_le.mp (Real.cos_bound habs)).1
  have h3 : |b| ^ 4 = b ^ 4 := by
    rw [← abs_pow, abs_of_nonneg (by positivity)]
  rw [h3] at h2
  linarith

lemma my_cos_ub {x a : ℝ} (h1 : a ≤ |x|) (h2 : |x| ≤ 1) (ha : 0 ≤ a) :
    cos x ≤ 1 - a ^ 2 / 2 + a ^ 4 * (5 / 96) := by
  have hx1 : cos |x| ≤ cos a :=
    cos_le_cos_of_nonneg_of_le_pi ha (by linarith [pi_lb]) h1
  rw [cos_abs] at hx1
  have habs : |a| ≤ 1 := abs_le.mpr ⟨by linarith, by linarith⟩
  have h3 := (abs_le.mp (Real.cos_bound habs)).2
  have h4 : |a| ^ 4 = a ^ 4 := by
    rw [← abs_pow, abs_of_nonneg (by positivity)]
  rw [h4] at h3
  linarith

lemma my_sqrt_bounds {x p q : ℝ} (hp : 0 ≤ p) (h1 : p ^ 2 ≤ x) (h2 : x ≤ q ^ 2)
    (hq : 0 ≤ q) : p ≤ √x ∧ √x ≤ q := by
  constructor
  · have := Real.sqrt_le_sqrt h1
    rwa [Real.sqrt_sq hp] at this
  · have := Real.sqrt_le_sqrt h2
    rwa [Real.sqrt_sq hq] at this

lemma my_arccos_le {v U : ℝ} (hU0 : 0 ≤ U) (hUpi : U ≤ π) (h : cos U ≤ v) :
    arccos v ≤ U := by
  have h1 : arcsin (cos U) ≤ arcsin v := monotone_arcsin h
  have h2 : arccos (cos U) = U := arccos_cos hU0 hUpi
  rw [arccos_eq_pi_div_two_sub_arcsin] at h2 ⊢
  linarith

lemma my_le_arccos {v U : ℝ} (hU0 : 0 ≤ U) (hUpi : U ≤ π) (h : v ≤ cos U) :
    U ≤ arccos v := by
  have h1 : arcsin v ≤ arcsin (cos U) := monotone_arcsin h
  have h2 : arccos (cos U) = U := arccos_cos hU0 hUpi
  rw [arccos_eq_pi_div_two_sub_arcsin] at h2 ⊢
  linarith

lemma atan2_mem_of {y x : ℝ} (hy : 0 < y) (hxy : |x| ≤ y) :
    π / 4 ≤ atan2 y x ∧ atan2 y x ≤ 3 * π / 4 := by
  have hpi : (0:ℝ) < π := pi_pos
  unfold atan2
  rcases lt_trichotomy x 0 with hx | hx | hx
  · rw [if_neg (by linarith), if_pos hx, if_pos (le_of_lt hy)]
    have hxabs : -x ≤ y := by rw [abs_of_neg hx] at hxy; exact hxy
    have h1 : y / x ≤ -1 := by
      rw [div_le_iff_of_neg hx]
      linarith
    have h2 : arctan (y / x) ≤ -(π/4) := by
      have := arctan_strictMono.monotone h1
      rwa [show arctan (-1) = -(π/4) by rw [show (-1:ℝ) = -(1:ℝ) by norm_num,
        arctan_neg, arctan_one]] at this
    have h3 := neg_pi_div_two_lt_arctan (y / x)
    constructor <;> linarith
  · subst hx
    rw [if_neg (lt_irrefl 0), if_neg (lt_irrefl 0), if_pos hy]
    constructor <;> linarith
  · rw [if_pos hx]
    have h1 : (1:ℝ) ≤ y / x := by
      rw [le_div_iff₀ hx]
      rw [abs_of_pos hx] at hxy
      linarith
    have h2 : π/4 ≤ arctan (y / x) := by
      have := arctan_strictMono.monotone h1
      rwa [arctan_one] at this
    have h3 := arctan_lt_pi_div_two (y / x)
    constructor <;> linarith

lemma degrees_pi_div_four : degrees (π / 4) = 45 := by
  unfold degrees
  field_simp
  ring

lemma degrees_three_pi_div_four : degrees (3 * π / 4) = 135 := by
  unfold degrees
  field_simp
  ring

end NumericHelpers

section GenericSunBounds

lemma julianDay_bounds {dt : DateTime} (h : dt.Valid) :
    (1700000 : ℚ) ≤ julianDay dt ∧ julianDay dt ≤ 5400000 := by
  obtain ⟨hy1, hy2, hm1, hm2, hd1, hd2, hh, hmin, hs, hus⟩ := h
  have hy1' : (1:ℚ) ≤ (dt.year : ℚ) := by exact_mod_cast hy1
  have hy2' : (dt.year : ℚ) ≤ 9999 := by exact_mod_cast hy2
  have hm1' : (1:ℚ) ≤ (dt.month : ℚ) := by exact_mod_cast hm1
  have hm2' : (dt.month : ℚ) ≤ 12 := by exact_mod_cast hm2
  have hd1' : (1:ℚ) ≤ (dt.day : ℚ) := by exact_mod_cast hd1
  have hd2' : (dt.day : ℚ) ≤ 31 := by exact_mod_cast hd2
  have hh' : (dt.hour : ℚ) ≤ 23 := by exact_mod_cast hh
  have hh0 : (0:ℚ) ≤ (dt.hour : ℚ) := by positivity
  have hmin' : (dt.minute : ℚ) ≤ 59 := by exact_mod_cast hmin
  have hmin0 : (0:ℚ) ≤ (dt.minute : ℚ) := by positivity
  have hs' : (dt.second : ℚ) ≤ 59 := by exact_mod_cast hs
  have hs0 : (0:ℚ) ≤ (dt.second : ℚ) := by positivity
  have hus' : (dt.microsecond : ℚ) ≤ 999999 := by exact_mod_cast hus
  have hus0 : (0:ℚ) ≤ (dt.microsecond : ℚ) := by positivity
  have ha_le := Int.floor_le (((14 : ℚ) - (dt.month : ℚ)) / 12)
  have ha0' : (0:ℤ) ≤ ⌊((14 : ℚ) - (dt.month : ℚ)) / 12⌋ :=
    Int.floor_nonneg.mpr (div_nonneg (by linarith) (by norm_num))
  have ha0 : (0:ℚ) ≤ (⌊((14 : ℚ) - (dt.month : ℚ)) / 12⌋ : ℚ) := by
    exact_mod_cast ha0'
  have hfrac_ub : ((14 : ℚ) - (dt.month : ℚ)) / 12 ≤ 13 / 12 :=
    (div_le_div_iff_of_pos_right (by norm_num)).mpr (by linarith)
  have ha1 : (⌊((14 : ℚ) - (dt.month : ℚ)) / 12⌋ : ℚ) ≤ 2 := by linarith
  set aq : ℚ := (⌊((14 : ℚ) - (dt.month : ℚ)) / 12⌋ : ℚ) with haq
  set y : ℚ := (dt.year : ℚ) + 4800 - aq with hydef
  have hy_lo : (4799:ℚ) ≤ y := by rw [hydef]; linarith
  have hy_hi : y ≤ 14799 := by rw [hydef]; linarith
  set m : ℚ := (dt.month : ℚ) + 12 * aq - 3 with hmdef
  have hm_lo : (-2:ℚ) ≤ m := by rw [hmdef]; linarith
  have hm_hi : m ≤ 33 := by rw [hmdef]; linarith
  have f1l := Int.floor_le ((153 * m + 2) / 5)
  have f1g := Int.sub_one_lt_floor ((153 * m + 2) / 5)
  have f2l := Int.floor_le (y / 4)
  have f2g := Int.sub_one_lt_floor (y / 4)
  have f3l := Int.floor_le (y / 100)
  have f3g := Int.sub_one_lt_floor (y / 100)
  have f4l := Int.floor_le (y / 400)
  have f4g := Int.sub_one_lt_floor (y / 400)
  have hjd : julianDay dt = (dt.day : ℚ) + (⌊(153 * m + 2) / 5⌋ : ℤ) + 365 * y +
      (⌊y / 4⌋ : ℤ) - (⌊y / 100⌋ : ℤ) + (⌊y / 400⌋ : ℤ) - 32045 +
      ((dt.hour : ℚ) - 12) / 24 + (dt.minute : ℚ) / 1440 +
      (dt.second : ℚ) / 86400 + (dt.microsecond : ℚ) / 86400000000 := rfl
  rw [hjd]
  constructor <;> linarith

end GenericSunBounds

section DeclinationBounds

lemma mul_interval_pos {x y a b c d : ℝ} (hx1 : a ≤ x) (hx2 : x ≤ b)
    (hy1 : c ≤ y) (hy2 : y ≤ d) (ha : 0 ≤ a) (hc : 0 ≤ c) :
    a * c ≤ x * y ∧ x * y ≤ b * d := by
  constructor <;> nlinarith

lemma abs_arcsin_sin_mul_le {e L : ℝ} (he0 : 0 ≤ e) (he2 : e ≤ π / 2) :
    |arcsin (sin e * sin L)| ≤ e := by
  have hse0 : 0 ≤ sin e :=
    sin_nonneg_of_nonneg_of_le_pi he0 (le_trans he2 (by linarith [pi_pos]))
  have hz1 : sin e * sin L ≤ sin e := by nlinarith [sin_le_one L]
  have hz2 : -sin e ≤ sin e * sin L := by nlinarith [neg_one_le_sin L]
  have hup : arcsin (sin e * sin L) ≤ e := by
    have := monotone_arcsin hz1
    rwa [arcsin_sin (by linarith [pi_pos]) he2] at this
  have hdn : -e ≤ arcsin (sin e * sin L) := by
    have h1 : sin (-e) ≤ sin e * sin L := by rw [sin_neg]; linarith
    have := monotone_arcsin h1
    rwa [arcsin_sin (by linarith) (by linarith)] at this
  rw [abs_le]; exact ⟨hdn, hup⟩

/-- For any valid date, the sun's declination (converted back to radians, as
the horizon and asr equations do) is `arcsin` of a product of sines, and is at
most `0.41382` radians (about 23.71 degrees) in absolute value. -/
lemma decl_arcsin_bounds {dt : DateTime} (h : dt.Valid) :
    ∃ z : ℝ, -1 ≤ z ∧ z ≤ 1 ∧
      radians ((sunEquation dt).1) = arcsin z ∧
      |arcsin z| ≤ 0.41382 := by
  obtain ⟨hjd1, hjd2⟩ := julianDay_bounds h
  have hjd1' : (1700000 : ℝ) ≤ instant dt := by
    unfold instant; exact_mod_cast hjd1
  have hjd2' : instant dt ≤ 5400000 := by
    unfold instant; exact_mod_cast hjd2
  have hsun : (sunEquation dt).1 =
      degrees (arcsin
        (sin (radians (realMod (23.439 - 0.00000036 * (instant dt - 2451545.0)) 360)) *
          sin (radians ((realMod (280.459 + 0.98564736 * (instant dt - 2451545.0)) 360) +
            1.915 * sin (radians (realMod (357.529 + 0.98560028 * (instant dt - 2451545.0)) 360)) +
            0.020 * sin (2 * radians (realMod (357.529 + 0.98560028 * (instant dt - 2451545.0)) 360)))))) := by
    unfold sunEquation sunEquationJD
    dsimp only
    rw [degrees_radians]
  have hEv1 : (22.37:ℝ) ≤ 23.439 - 0.00000036 * (instant dt - 2451545.0) := by
    nlinarith
  have hEv2 : 23.439 - 0.00000036 * (instant dt - 2451545.0) ≤ 23.71 := by
    nlinarith
  have hmod : realMod (23.439 - 0.00000036 * (instant dt - 2451545.0)) 360 =
      23.439 - 0.00000036 * (instant dt - 2451545.0) :=
    realMod_eq_self (by norm_num) (by linarith) (by linarith)
  have hebounds := mul_interval_pos hEv1 hEv2 pi_lb.le pi_ub.le
    (by norm_num) (by norm_num)
  have he1 : (0.39:ℝ) ≤ radians (realMod (23.439 - 0.00000036 * (instant dt - 2451545.0)) 360) := by
    rw [hmod]; unfold radians
    rw [le_div_iff₀ (by norm_num : (0:ℝ) < 180)]
    nlinarith [hebounds.1]
  have he2 : radians (realMod (23.439 - 0.00000036 * (instant dt - 2451545.0)) 360) ≤ 0.41382 := by
    rw [hmod]; unfold radians
    rw [div_le_iff₀ (by norm_num : (0:ℝ) < 180)]
    nlinarith [hebounds.2]
  refine ⟨_, ?_, ?_, by rw [hsun, radians_degrees], ?_⟩
  · have h1 := neg_one_le_sin (radians (realMod (23.439 - 0.00000036 * (instant dt - 2451545.0)) 360))
    have h2 := sin_le_one (radians (realMod (23.439 - 0.00000036 * (instant dt - 2451545.0)) 360))
    have h3 := neg_one_le_sin (radians ((realMod (280.459 + 0.98564736 * (instant dt - 2451545.0)) 360) +
      1.915 * sin (radians (realMod (357.529 + 0.98560028 * (instant dt - 2451545.0)) 360)) +
      0.020 * sin (2 * radians (realMod (357.529 + 0.98560028 * (instant dt - 2451545.0)) 360))))
    have h4 := sin_le_one (radians ((realMod (280.459 + 0.98564736 * (instant dt - 2451545.0)) 360) +
      1.915 * sin (radians (realMod (357.529 + 0.98560028 * (instant dt - 2451545.0)) 360)) +
      0.020 * sin (2 * radians (realMod (357.529 + 0.98560028 * (instant dt - 2451545.0)) 360))))
    nlinarith
  · have h1 := neg_one_le_sin (radians (realMod (23.439 - 0.00000036 * (instant dt - 2451545.0)) 360))
    have h2 := sin_le_one (radians (realMod (23.439 - 0.00000036 * (instant dt - 2451545.0)) 360))
    have h3 := neg_one_le_sin (radians ((realMod (280.459 + 0.98564736 * (instant dt - 2451545.0)) 360) +
      1.915 * sin (radians (realMod (357.529 + 0.98560028 * (instant dt - 2451545.0)) 360)) +
      0.020 * sin (2 * radians (realMod (357.529 + 0.98560028 * (instant dt - 2451545.0)) 360))))
    have h4 := sin_le_one (radians ((realMod (280.459 + 0.98564736 * (instant dt - 2451545.0)) 360) +
      1.915 * sin (radians (realMod (357.529 + 0.98560028 * (instant dt - 2451545.0)) 360)) +
      0.020 * sin (2 * radians (realMod (357.529 + 0.98560028 * (instant dt - 2451545.0)) 360))))
    nlinarith
  · refine le_trans (abs_arcsin_sin_mul_le (by linarith) ?_) he2
    linarith [pi_lb]

end DeclinationBounds

section OrderingLemmas

lemma fajrIshaAngle_cases {fic : String} {fAng : ℝ} {iAng : IshaParam}
    (h : fajrIshaAngle fic = some (fAng, iAng)) :
    (fAng = 18 ∧ iAng = .angle 17) ∨ (fAng = 15 ∧ iAng = .angle 15) ∨
      (fAng = 19.5 ∧ iAng = .angle 17.5) ∨ (fAng = 18.5 ∧ iAng = .minutes90) := by
  unfold fajrIshaAngle at h
  split_ifs at h <;>
    simp only [Option.some.injEq, Prod.mk.injEq] at h
  · exact Or.inl ⟨h.1.symm, h.2.symm⟩
  · exact Or.inr (Or.inl ⟨h.1.symm, h.2.symm⟩)
  · exact Or.inr (Or.inr (Or.inl ⟨h.1.symm, h.2.symm⟩))
  · exact Or.inr (Or.inr (Or.inr ⟨h.1.symm, h.2.symm⟩))

lemma asrShadow_cases {ac : String} {sha : ℝ} (h : asrShadow ac = some sha) :
    sha = 1 ∨ sha = 2 := by
  unfold asrShadow at h
  split_ifs at h <;> simp only [Option.some.injEq] at h
  · exact Or.inl h.symm
  · exact Or.inr h.symm

lemma sin_arctan_inv {x : ℝ} (hx : 0 < x) :
    sin (arctan (1 / x)) = 1 / √(x ^ 2 + 1) := by
  rw [sin_arctan]
  have hxne : x ≠ 0 := ne_of_gt hx
  have h1 : 1 + (1 / x) ^ 2 = (x ^ 2 + 1) / x ^ 2 := by field_simp
  have hnum : (0:ℝ) ≤ x ^ 2 + 1 := by positivity
  rw [h1, Real.sqrt_div hnum, Real.sqrt_sq hx.le]
  have hs : (0:ℝ) < √(x ^ 2 + 1) := Real.sqrt_pos.mpr (by positivity)
  field_simp

lemma tan_le_of_le_small {u b : ℝ} (hu0 : 0 ≤ u) (hub : u ≤ b) (hb : b ≤ 1) :
    tan u ≤ tan b := by
  have hb2 : b < π / 2 := by linarith [pi_lb]
  have hmem1 : u ∈ Set.Ioo (-(π/2)) (π/2) := ⟨by linarith [pi_lb], by linarith⟩
  have hmem2 : b ∈ Set.Ioo (-(π/2)) (π/2) := ⟨by linarith [pi_lb], hb2⟩
  exact strictMonoOn_tan.monotoneOn hmem1 hmem2 hub

lemma tan_small_bound : tan (0.41382 : ℝ) ≤ 0.45 := by
  rw [tan_eq_sin_div_cos]
  have hcos : (0.91284:ℝ) ≤ cos 0.41382 := by
    have := @my_cos_lb (0.41382:ℝ) 0.41382 (abs_le.mpr (by norm_num)) (by norm_num)
    nlinarith
  have hsin : sin (0.41382:ℝ) ≤ 0.40354 := by
    have := @my_sin_ub (0.41382:ℝ) 0.41382 le_rfl (by norm_num) (by norm_num)
    nlinarith
  rw [div_le_iff₀ (by linarith)]
  nlinarith [sin_le_one (0.41382:ℝ)]

/-- Core inequalities on the arccos arguments, for an opaque declination value
whose radian measure is small and a latitude in `[0, 60]`. -/
lemma ordering_core {lat decl sha fAng : ℝ}
    (hdecl : |radians decl| ≤ 0.41382)
    (hl0 : 0 ≤ lat) (hl60 : lat ≤ 60)
    (hsha : 1 ≤ sha ∧ sha ≤ 2)
    (hfAng : 0 < fAng ∧ fAng ≤ 50) :
    horizonArg fAng lat decl < 1 ∧
    asrArg sha lat decl < 1 ∧
    horizonArg 0.833 lat decl < asrArg sha lat decl ∧
    (∀ aI : ℝ, 0.833 < aI → aI ≤ 17.5 →
      horizonArg aI lat decl < horizonArg 0.833 lat decl) := by
  have hpi := pi_lb
  have hpi2 := pi_ub
  obtain ⟨DEC, hDEC⟩ : ∃ v, radians decl = v := ⟨_, rfl⟩
  obtain ⟨LATr, hLATr⟩ : ∃ v, radians lat = v := ⟨_, rfl⟩
  rw [hDEC] at hdecl
  have hLATr0 : 0 ≤ LATr := by
    rw [← hLATr]; unfold radians; positivity
  have hLATr60 : LATr ≤ 1.0471977 := by
    rw [← hLATr]; unfold radians
    rw [div_le_iff₀ (by norm_num : (0:ℝ) < 180)]
    nlinarith only [hl0, hl60, hpi2, pi_pos]
  have hDEClo : -0.41382 ≤ DEC := (abs_le.mp hdecl).1
  have hDEChi : DEC ≤ 0.41382 := (abs_le.mp hdecl).2
  have hcosLAT : 0 < cos LATr := cos_pos_of_mem_Ioo ⟨by linarith, by linarith⟩
  have hcosDEC : 0 < cos DEC := cos_pos_of_mem_Ioo ⟨by linarith, by linarith⟩
  have hden : 0 < cos LATr * cos DEC := mul_pos hcosLAT hcosDEC
  have hθpi2 : LATr - DEC < π / 2 := by linarith
  have hθnegpi2 : -(π / 2) < LATr - DEC := by linarith
  have hcosθ : 0 < cos (LATr - DEC) := cos_pos_of_mem_Ioo ⟨hθnegpi2, hθpi2⟩
  have hcos_sub : cos (LATr - DEC) = cos LATr * cos DEC + sin LATr * sin DEC :=
    cos_sub LATr DEC
  have htan_lb : -0.45 ≤ tan (LATr - DEC) := by
    rcases le_or_lt 0 (LATr - DEC) with hpos | hneg
    · have := tan_nonneg_of_nonneg_of_le_pi_div_two hpos (le_of_lt hθpi2)
      linarith
    · have h1 : -(LATr - DEC) ≤ 0.41382 := by linarith
      have h2 : tan (-(LATr - DEC)) ≤ tan 0.41382 :=
        tan_le_of_le_small (by linarith) h1 (by norm_num)
      rw [tan_neg] at h2
      have := tan_small_bound
      linarith
  obtain ⟨x, hxdef⟩ : ∃ v, sha + tan (LATr - DEC) = v := ⟨_, rfl⟩
  have hx0 : 0.55 ≤ x := by rw [← hxdef]; linarith [hsha.1]
  have hxpos : 0 < x := by linarith
  have hsinacot : sin (arctan (1 / x)) = 1 / √(x ^ 2 + 1) := sin_arctan_inv hxpos
  have hsqx : 0 < √(x ^ 2 + 1) := Real.sqrt_pos.mpr (by positivity)
  have hsinacot_pos : 0 < sin (arctan (1 / x)) := by
    rw [hsinacot]; positivity
  have hsaM : 0 < sin (radians 0.833) := by
    apply sin_pos_of_pos_of_lt_pi
    · unfold radians; positivity
    · unfold radians
      rw [div_lt_iff₀ (by norm_num : (0:ℝ) < 180)]
      nlinarith only [pi_pos]
  refine ⟨?_, ?_, ?_, ?_⟩
  · -- fajr-style argument below 1
    unfold horizonArg
    rw [hLATr, hDEC, div_lt_one hden]
    have hra0 : 0 < radians fAng := by
      unfold radians
      exact div_pos (mul_pos hfAng.1 pi_pos) (by norm_num)
    have hrapi : radians fAng < π := by
      unfold radians
      rw [div_lt_iff₀ (by norm_num : (0:ℝ) < 180)]
      nlinarith only [hfAng.1, hfAng.2, pi_pos]
    have hsa : 0 < sin (radians fAng) := sin_pos_of_pos_of_lt_pi hra0 hrapi
    linarith only [hsa, hcosθ, hcos_sub]
  · -- asr argument below 1
    unfold asrArg
    rw [hLATr, hDEC, hxdef, div_lt_one hden]
    have hcosθeq : cos (LATr - DEC) = 1 / √(1 + tan (LATr - DEC) ^ 2) := by
      rw [one_div, ← Real.inv_sqrt_one_add_tan_sq hcosθ]
    have htansq : tan (LATr - DEC) ^ 2 < x ^ 2 := by
      rcases le_or_lt 0 (tan (LATr - DEC)) with hpos | hneg
      · nlinarith only [hpos, hxdef, hsha.1, hx0]
      · nlinarith only [hneg, htan_lb, hx0]
    have hsqlt : √(1 + tan (LATr - DEC) ^ 2) < √(x ^ 2 + 1) := by
      apply Real.sqrt_lt_sqrt (by positivity)
      linarith only [htansq]
    have hsq1 : 0 < √(1 + tan (LATr - DEC) ^ 2) :=
      Real.sqrt_pos.mpr (by positivity)
    have hlt : sin (arctan (1 / x)) < cos (LATr - DEC) := by
      rw [hsinacot, hcosθeq]
      exact one_div_lt_one_div_of_lt hsq1 hsqlt
    rw [hcos_sub] at hlt
    linarith only [hlt]
  · -- maghrib argument below asr argument
    unfold horizonArg asrArg
    rw [hLATr, hDEC, hxdef, div_lt_div_iff_of_pos_right hden]
    linarith only [hsaM, hsinacot_pos]
  · -- isha argument below maghrib argument
    intro aI haI1 haI2
    have hsalt : sin (radians 0.833) < sin (radians aI) := by
      apply sin_lt_sin_of_lt_of_le_pi_div_two
      · unfold radians
        nlinarith only [pi_pos]
      · unfold radians
        rw [div_le_iff₀ (by norm_num : (0:ℝ) < 180)]
        nlinarith only [haI2, pi_pos, pi_lb]
      · unfold radians
        have h1 : (0.833:ℝ) * π < aI * π := by nlinarith only [pi_pos, haI1]
        linarith only [h1]
    unfold horizonArg
    rw [hLATr, hDEC, div_lt_div_iff_of_pos_right hden]
    linarith only [hsalt]

/-- The central ordering fact: a successfully computed table at a latitude in
`[0, 60]` on a valid date is strictly increasing. -/
lemma tableIncreasing_of_ok {date : DateTime} {LON lat tz : ℝ} {fic ac : String}
    {t : PrayerTable} (hv : date.Valid) (hl0 : 0 ≤ lat) (hl60 : lat ≤ 60)
    (h : computeAllPrayerTimes date (LON, lat) tz fic ac = .ok t) :
    tableIncreasing t := by
  obtain ⟨fAng, iAng, sha, hF, hA, hM, hfa, hsh, hFeq, hAeq, hMeq, hth, hfajr,
    hasr, hmag, hisha⟩ := computeAll_ok_elim h
  clear h
  have hdecl : |radians ((sunEquation date).1)| ≤ 0.41382 := by
    obtain ⟨z, hz1, hz2, hzeq, hzabs⟩ := decl_arcsin_bounds hv
    rw [hzeq]; exact hzabs
  have hsha12 : 1 ≤ sha ∧ sha ≤ 2 := by
    rcases asrShadow_cases hsh with rfl | rfl <;> norm_num
  have hfAng_pos : 0 < fAng ∧ fAng ≤ 50 := by
    rcases fajrIshaAngle_cases hfa with ⟨h', -⟩ | ⟨h', -⟩ | ⟨h', -⟩ | ⟨h', -⟩ <;>
      rw [h'] <;> norm_num
  obtain ⟨key1, key2, keyMA, keyIM⟩ :=
    ordering_core hdecl hl0 hl60 hsha12 hfAng_pos
  obtain ⟨⟨hvF1, hvF2⟩, hFval⟩ := horizonEquation_ok_elim hFeq
  obtain ⟨⟨hvA1, hvA2⟩, hAval⟩ := asrEquation_ok_elim hAeq
  obtain ⟨⟨hvM1, hvM2⟩, hMval⟩ := horizonEquation_ok_elim hMeq
  have hF_pos : 0 < hF := by
    rw [hFval]
    have h1 : 0 < arccos (horizonArg fAng lat ((sunEquation date).1)) :=
      arccos_pos.mpr key1
    have h2 := degrees_pos h1
    linarith only [h2]
  have hA_pos : 0 < hA := by
    rw [hAval]
    have h1 : 0 < arccos (asrArg sha lat ((sunEquation date).1)) :=
      arccos_pos.mpr key2
    have h2 := degrees_pos h1
    linarith only [h2]
  have harccosMA : arccos (asrArg sha lat ((sunEquation date).1)) <
      arccos (horizonArg 0.833 lat ((sunEquation date).1)) :=
    strictAntiOn_arccos ⟨hvM1, hvM2⟩ ⟨hvA1, hvA2⟩ keyMA
  have hAM : hA < hM := by
    rw [hAval, hMval]
    have h2 := degrees_lt_degrees harccosMA
    linarith only [h2]
  refine ⟨by rw [hfajr]; linarith only [hF_pos],
    by rw [hasr]; linarith only [hA_pos],
    by rw [hasr, hmag]; linarith only [hAM], ?_⟩
  rcases hisha with ⟨-, hIv⟩ | ⟨aI, hI, hiAng, hIeq, hIv⟩
  · rw [hIv]; norm_num
  · obtain ⟨⟨hvI1, hvI2⟩, hIval⟩ := horizonEquation_ok_elim hIeq
    have haI_range : 0.833 < aI ∧ aI ≤ 17.5 := by
      rcases fajrIshaAngle_cases hfa with ⟨-, h'⟩ | ⟨-, h'⟩ | ⟨-, h'⟩ | ⟨-, h'⟩ <;>
        rw [hiAng] at h'
      · cases h'; norm_num
      · cases h'; norm_num
      · cases h'; norm_num
      · cases h'
    have hIM := keyIM aI haI_range.1 haI_range.2
    have harccosIM : arccos (horizonArg 0.833 lat ((sunEquation date).1)) <
        arccos (horizonArg aI lat ((sunEquation date).1)) :=
      strictAntiOn_arccos ⟨hvI1, hvI2⟩ ⟨hvM1, hvM2⟩ hIM
    have hMI : hM < hI := by
      rw [hMval, hIval]
      have h2 := degrees_lt_degrees harccosIM
      linarith only [h2]
    rw [hIv, hmag]
    linarith only [hMI]

end OrderingLemmas

section ConcreteDates

lemma degrees_zero : degrees 0 = 0 := by
  unfold degrees
  simp

lemma degrees_le_degrees {x y : ℝ} (h : x ≤ y) : degrees x ≤ degrees y := by
  unfold degrees
  have hpi : (0:ℝ) < π := pi_pos
  gcongr

lemma cos_sub_pi_div_two (x : ℝ) : cos (x - π / 2) = sin x := by
  rw [cos_sub, cos_pi_div_two, sin_pi_div_two]
  ring

lemma sin_sub_pi_div_two (x : ℝ) : sin (x - π / 2) = -cos x := by
  rw [sin_sub, cos_pi_div_two, sin_pi_div_two]
  ring

/-- The datetime 2019-06-21. -/
def d621 : DateTime := ⟨2019, 6, 21, 0, 0, 0, 0⟩

lemma d621_valid : DateTime.Valid d621 := by decide

lemma instant_d621 : instant d621 = 4917311/2 := by
  have h : julianDay d621 = 4917311/2 := by norm_num [julianDay, d621]
  unfold instant
  rw [h]
  norm_num

/-- The apparent ecliptic longitude expression (in degrees) appearing inside
`sunEquation` on this date. -/
noncomputable def Lx621 : ℝ :=
  277826729/3125000 + 1.915 * sin (radians (8281989547/50000000)) +
    0.020 * sin (2 * radians (8281989547/50000000))

/-- The argument of `arcsin` in the declination on this date. -/
noncomputable def zv621 : ℝ := sin (radians (1171822011/50000000)) * sin (radians Lx621)

lemma decl_eq_d621 : (sunEquation d621).1 = degrees (arcsin zv621) := by
  have hG : realMod (357.529 + 0.98560028 * ((4917311/2:ℝ) - 2451545.0)) 360 =
      8281989547/50000000 := by
    rw [realMod_of_floor 20] <;> norm_num [Int.floor_eq_iff]
  have hQ : realMod (280.459 + 0.98564736 * ((4917311/2:ℝ) - 2451545.0)) 360 =
      277826729/3125000 := by
    rw [realMod_of_floor 20] <;> norm_num [Int.floor_eq_iff]
  have hE : realMod (23.439 - 0.00000036 * ((4917311/2:ℝ) - 2451545.0)) 360 =
      1171822011/50000000 := by
    rw [realMod_eq_self] <;> norm_num
  unfold sunEquation sunEquationJD
  dsimp only
  rw [instant_d621, hG, hQ, hE, degrees_radians]
  unfold zv621 Lx621
  norm_num

lemma eot_eq_d621 : (sunEquation d621).2 =
    (277826729/3125000:ℝ) / 15 -
      realMod (degrees (atan2 (cos (radians (1171822011/50000000)) * sin (radians Lx621))
        (cos (radians Lx621))) / 15) 24 := by
  have hG : realMod (357.529 + 0.98560028 * ((4917311/2:ℝ) - 2451545.0)) 360 =
      8281989547/50000000 := by
    rw [realMod_of_floor 20] <;> norm_num [Int.floor_eq_iff]
  have hQ : realMod (280.459 + 0.98564736 * ((4917311/2:ℝ) - 2451545.0)) 360 =
      277826729/3125000 := by
    rw [realMod_of_floor 20] <;> norm_num [Int.floor_eq_iff]
  have hE : realMod (23.439 - 0.00000036 * ((4917311/2:ℝ) - 2451545.0)) 360 =
      1171822011/50000000 := by
    rw [realMod_eq_self] <;> norm_num
  unfold sunEquation sunEquationJD
  dsimp only
  rw [instant_d621, hG, hQ, hE, degrees_radians]
  unfold Lx621
  norm_num

lemma sinG_d621 : (154877/625000:ℝ) ≤ sin (radians (8281989547/50000000)) ∧
    sin (radians (8281989547/50000000:ℝ)) ≤ 1241073/5000000 := by
  have h1 : radians ((718010453/50000000:ℝ)) = π - radians (8281989547/50000000) := by
    unfold radians; ring
  have hid : sin (radians (8281989547/50000000:ℝ)) = sin (radians ((718010453/50000000:ℝ))) := by
    rw [h1, sin_pi_sub]
  have hlo : (62658219/250000000:ℝ) ≤ radians (718010453/50000000) := by
    unfold radians
    rw [le_div_iff₀ (by norm_num : (0:ℝ) < 180)]
    nlinarith only [pi_lb]
  have hhi : radians ((718010453/50000000:ℝ)) ≤ 250632959/1000000000 := by
    unfold radians
    rw [div_le_iff₀ (by norm_num : (0:ℝ) < 180)]
    nlinarith only [pi_ub]
  constructor
  · rw [hid]
    have := my_sin_lb hlo (by norm_num) (by linarith only [hhi])
    linarith only [this]
  · rw [hid]
    have := my_sin_ub hhi (by linarith only [hlo]) (by norm_num)
    linarith only [this]

lemma sin2G_d621 : (-604453/1250000:ℝ) ≤ sin (2 * radians (8281989547/50000000)) ∧
    sin (2 * radians (8281989547/50000000:ℝ)) ≤ -2384927/5000000 := by
  have h1 : radians ((718010453/25000000:ℝ)) = -(2 * radians (8281989547/50000000) - 2 * π) := by
    unfold radians; ring
  have hid : sin (2 * radians (8281989547/50000000:ℝ)) = -sin (radians ((718010453/25000000:ℝ))) := by
    rw [h1, sin_neg, sin_sub_two_pi, neg_neg]
  have hlo : (501265753/1000000000:ℝ) ≤ radians (718010453/25000000) := by
    unfold radians
    rw [le_div_iff₀ (by norm_num : (0:ℝ) < 180)]
    nlinarith only [pi_lb]
  have hhi : radians ((718010453/25000000:ℝ)) ≤ 125316479/250000000 := by
    unfold radians
    rw [div_le_iff₀ (by norm_num : (0:ℝ) < 180)]
    nlinarith only [pi_ub]
  constructor
  · rw [hid]
    have := my_sin_ub hhi (by linarith only [hlo]) (by norm_num)
    linarith only [this]
  · rw [hid]
    have := my_sin_lb hlo (by norm_num) (by linarith only [hhi])
    linarith only [this]

lemma Lx621_bounds : (3574777/40000:ℝ) ≤ Lx621 ∧ Lx621 ≤ 893703447/10000000 := by
  obtain ⟨h1, h2⟩ := sinG_d621
  obtain ⟨h3, h4⟩ := sin2G_d621
  unfold Lx621
  constructor <;> linarith only [h1, h2, h3, h4]

lemma radiansLx621_bounds : (7798951/5000000:ℝ) ≤ radians Lx621 ∧
    radians Lx621 ≤ 15598071/10000000 := by
  obtain ⟨h1, h2⟩ := Lx621_bounds
  unfold radians
  constructor
  · rw [le_div_iff₀ (by norm_num : (0:ℝ) < 180)]
    nlinarith only [pi_lb, pi_ub, h1, h2, pi_pos]
  · rw [div_le_iff₀ (by norm_num : (0:ℝ) < 180)]
    nlinarith only [pi_lb, pi_ub, h1, h2, pi_pos]

lemma sinE_d621 : (1980891/5000000:ℝ) ≤ sin (radians (1171822011/50000000)) ∧
    sin (radians (1171822011/50000000:ℝ)) ≤ 3990947/10000000 := by
  have hlo : (5113037/12500000:ℝ) ≤ radians (1171822011/50000000) := by
    unfold radians
    rw [le_div_iff₀ (by norm_num : (0:ℝ) < 180)]
    nlinarith only [pi_lb]
  have hhi : radians ((1171822011/50000000:ℝ)) ≤ 409043093/1000000000 := by
    unfold radians
    rw [div_le_iff₀ (by norm_num : (0:ℝ) < 180)]
    nlinarith only [pi_ub]
  constructor
  · have := my_sin_lb hlo (by norm_num) (by linarith only [hhi])
    linarith only [this]
  · have := my_sin_ub hhi (by linarith only [hlo]) (by norm_num)
    linarith only [this]

lemma cosE_d621 : (9148837/10000000:ℝ) ≤ cos (radians (1171822011/50000000)) := by
  have hlo : (5113037/12500000:ℝ) ≤ radians (1171822011/50000000) := by
    unfold radians
    rw [le_div_iff₀ (by norm_num : (0:ℝ) < 180)]
    nlinarith only [pi_lb]
  have hhi : radians ((1171822011/50000000:ℝ)) ≤ 409043093/1000000000 := by
    unfold radians
    rw [div_le_iff₀ (by norm_num : (0:ℝ) < 180)]
    nlinarith only [pi_ub]
  have habs : |radians ((1171822011/50000000:ℝ))| ≤ 409043093/1000000000 :=
    abs_le.mpr ⟨by linarith only [hlo], hhi⟩
  have := my_cos_lb habs (by norm_num)
  linarith only [this]

lemma sinLx621_lb : (9999393/10000000:ℝ) ≤ sin (radians Lx621) := by
  obtain ⟨h1, h2⟩ := radiansLx621_bounds
  have hdev : |radians Lx621 - π / 2| ≤ 6879/625000 := by
    rw [abs_le]
    constructor <;> nlinarith only [h1, h2, pi_lb, pi_ub]
  have hid : sin (radians Lx621) = cos (radians Lx621 - π / 2) :=
    (cos_sub_pi_div_two _).symm
  rw [hid]
  have := my_cos_lb hdev (by norm_num)
  linarith only [this]

lemma cosLx621_abs : |cos (radians Lx621)| ≤ 6879/625000 := by
  obtain ⟨h1, h2⟩ := radiansLx621_bounds
  have hdev : |radians Lx621 - π / 2| ≤ 6879/625000 := by
    rw [abs_le]
    constructor <;> nlinarith only [h1, h2, pi_lb, pi_ub]
  have hid : cos (radians Lx621) = -sin (radians Lx621 - π / 2) := by
    rw [sin_sub_pi_div_two, neg_neg]
  rw [hid, abs_neg]
  exact le_trans abs_sin_le_abs hdev

lemma zv621_bounds : (198077/500000:ℝ) ≤ zv621 ∧ zv621 ≤ 3990947/10000000 := by
  obtain ⟨h1, h2⟩ := sinE_d621
  have h3 := sinLx621_lb
  have h4 := sin_le_one (radians Lx621)
  unfold zv621
  constructor <;> nlinarith only [h1, h2, h3, h4]

lemma eot_bounds_d621 : (-144048271/46875000:ℝ) ≤ (sunEquation d621).2 ∧
    (sunEquation d621).2 ≤ 137201729/46875000 := by
  rw [eot_eq_d621]
  have hcE := cosE_d621
  have hcE2 := cos_le_one (radians ((1171822011/50000000):ℝ))
  have hsL := sinLx621_lb
  have hsL2 := sin_le_one (radians Lx621)
  have hy : (228707/250000:ℝ) ≤ cos (radians (1171822011/50000000)) * sin (radians Lx621) := by
    nlinarith only [hcE, hcE2, hsL, hsL2]
  have hypos : (0:ℝ) < cos (radians (1171822011/50000000)) * sin (radians Lx621) := by
    linarith only [hy]
  have hxy : |cos (radians Lx621)| ≤
      cos (radians (1171822011/50000000)) * sin (radians Lx621) := by
    have := cosLx621_abs
    linarith only [this, hy]
  obtain ⟨hat1, hat2⟩ := atan2_mem_of hypos hxy
  have hd1 : (45:ℝ) ≤ degrees (atan2 (cos (radians (1171822011/50000000)) * sin (radians Lx621))
      (cos (radians Lx621))) := by
    have := degrees_le_degrees hat1
    rwa [degrees_pi_div_four] at this
  have hd2 : degrees (atan2 (cos (radians (1171822011/50000000:ℝ)) * sin (radians Lx621))
      (cos (radians Lx621))) ≤ 135 := by
    have := degrees_le_degrees hat2
    rwa [degrees_three_pi_div_four] at this
  have hmod : realMod (degrees (atan2 (cos (radians (1171822011/50000000:ℝ)) * sin (radians Lx621))
      (cos (radians Lx621))) / 15) 24 =
      degrees (atan2 (cos (radians (1171822011/50000000:ℝ)) * sin (radians Lx621))
        (cos (radians Lx621))) / 15 := by
    apply realMod_eq_self (by norm_num) (by linarith only [hd1]) (by linarith only [hd2])
  rw [hmod]
  constructor <;> linarith only [hd1, hd2]

/-- The datetime 2019-06-22. -/
def d622 : DateTime := ⟨2019, 6, 22, 0, 0, 0, 0⟩

lemma d622_valid : DateTime.Valid d622 := by decide

lemma instant_d622 : instant d622 = 4917313/2 := by
  have h : julianDay d622 = 4917313/2 := by norm_num [julianDay, d622]
  unfold instant
  rw [h]
  norm_num

/-- The apparent ecliptic longitude expression (in degrees) appearing inside
`sunEquation` on this date. -/
noncomputable def Lx622 : ℝ :=
  280906877/3125000 + 1.915 * sin (radians (8331269561/50000000)) +
    0.020 * sin (2 * radians (8331269561/50000000))

/-- The argument of `arcsin` in the declination on this date. -/
noncomputable def zv622 : ℝ := sin (radians (1171821993/50000000)) * sin (radians Lx622)

lemma decl_eq_d622 : (sunEquation d622).1 = degrees (arcsin zv622) := by
  have hG : realMod (357.529 + 0.98560028 * ((4917313/2:ℝ) - 2451545.0)) 360 =
      8331269561/50000000 := by
    rw [realMod_of_floor 20] <;> norm_num [Int.floor_eq_iff]
  have hQ : realMod (280.459 + 0.98564736 * ((4917313/2:ℝ) - 2451545.0)) 360 =
      280906877/3125000 := by
    rw [realMod_of_floor 20] <;> norm_num [Int.floor_eq_iff]
  have hE : realMod (23.439 - 0.00000036 * ((4917313/2:ℝ) - 2451545.0)) 360 =
      1171821993/50000000 := by
    rw [realMod_eq_self] <;> norm_num
  unfold sunEquation sunEquationJD
  dsimp only
  rw [instant_d622, hG, hQ, hE, degrees_radians]
  unfold zv622 Lx622
  norm_num

lemma eot_eq_d622 : (sunEquation d622).2 =
    (280906877/3125000:ℝ) / 15 -
      realMod (degrees (atan2 (cos (radians (1171821993/50000000)) * sin (radians Lx622))
        (cos (radians Lx622))) / 15) 24 := by
  have hG : realMod (357.529 + 0.98560028 * ((4917313/2:ℝ) - 2451545.0)) 360 =
      8331269561/50000000 := by
    rw [realMod_of_floor 20] <;> norm_num [Int.floor_eq_iff]
  have hQ : realMod (280.459 + 0.98564736 * ((4917313/2:ℝ) - 2451545.0)) 360 =
      280906877/3125000 := by
    rw [realMod_of_floor 20] <;> norm_num [Int.floor_eq_iff]
  have hE : realMod (23.439 - 0.00000036 * ((4917313/2:ℝ) - 2451545.0)) 360 =
      1171821993/50000000 := by
    rw [realMod_eq_self] <;> norm_num
  unfold sunEquation sunEquationJD
  dsimp only
  rw [instant_d622, hG, hQ, hE, degrees_radians]
  unfold Lx622
  norm_num

lemma sinG_d622 : (1155781/5000000:ℝ) ≤ sin (radians (8331269561/50000000)) ∧
    sin (radians (8331269561/50000000:ℝ)) ≤ 1157329/5000000 := by
  have h1 : radians ((668730439/50000000:ℝ)) = π - radians (8331269561/50000000) := by
    unfold radians; ring
  have hid : sin (radians (8331269561/50000000:ℝ)) = sin (radians ((668730439/50000000:ℝ))) := by
    rw [h1, sin_pi_sub]
  have hlo : (233430909/1000000000:ℝ) ≤ radians (668730439/50000000) := by
    unfold radians
    rw [le_div_iff₀ (by norm_num : (0:ℝ) < 180)]
    nlinarith only [pi_lb]
  have hhi : radians ((668730439/50000000:ℝ)) ≤ 233430987/1000000000 := by
    unfold radians
    rw [div_le_iff₀ (by norm_num : (0:ℝ) < 180)]
    nlinarith only [pi_ub]
  constructor
  · rw [hid]
    have := my_sin_lb hlo (by norm_num) (by linarith only [hhi])
    linarith only [this]
  · rw [hid]
    have := my_sin_ub hhi (by linarith only [hlo]) (by norm_num)
    linarith only [this]

lemma sin2G_d622 : (-4523769/10000000:ℝ) ≤ sin (2 * radians (8331269561/50000000)) ∧
    sin (2 * radians (8331269561/50000000:ℝ)) ≤ -2237139/5000000 := by
  have h1 : radians ((668730439/25000000:ℝ)) = -(2 * radians (8331269561/50000000) - 2 * π) := by
    unfold radians; ring
  have hid : sin (2 * radians (8331269561/50000000:ℝ)) = -sin (radians ((668730439/25000000:ℝ))) := by
    rw [h1, sin_neg, sin_sub_two_pi, neg_neg]
  have hlo : (23343091/50000000:ℝ) ≤ radians (668730439/25000000) := by
    unfold radians
    rw [le_div_iff₀ (by norm_num : (0:ℝ) < 180)]
    nlinarith only [pi_lb]
  have hhi : radians ((668730439/25000000:ℝ)) ≤ 116715493/250000000 := by
    unfold radians
    rw [div_le_iff₀ (by norm_num : (0:ℝ) < 180)]
    nlinarith only [pi_ub]
  constructor
  · rw [hid]
    have := my_sin_ub hhi (by linarith only [hlo]) (by norm_num)
    linarith only [this]
  · rw [hid]
    have := my_sin_lb hlo (by norm_num) (by linarith only [hhi])
    linarith only [this]

lemma Lx622_bounds : (903238171/10000000:ℝ) ≤ Lx622 ∧ Lx622 ≤ 225811273/2500000 := by
  obtain ⟨h1, h2⟩ := sinG_d622
  obtain ⟨h3, h4⟩ := sin2G_d622
  unfold Lx622
  constructor <;> linarith only [h1, h2, h3, h4]

lemma radiansLx622_bounds : (630579/400000:ℝ) ≤ radians Lx622 ∧
    radians Lx622 ≤ 3941151/2500000 := by
  obtain ⟨h1, h2⟩ := Lx622_bounds
  unfold radians
  constructor
  · rw [le_div_iff₀ (by norm_num : (0:ℝ) < 180)]
    nlinarith only [pi_lb, pi_ub, h1, h2, pi_pos]
  · rw [div_le_iff₀ (by norm_num : (0:ℝ) < 180)]
    nlinarith only [pi_lb, pi_ub, h1, h2, pi_pos]

lemma sinE_d622 : (1980891/5000000:ℝ) ≤ sin (radians (1171821993/50000000)) ∧
    sin (radians (1171821993/50000000:ℝ)) ≤ 3990947/10000000 := by
  have hlo : (204521477/500000000:ℝ) ≤ radians (1171821993/50000000) := by
    unfold radians
    rw [le_div_iff₀ (by norm_num : (0:ℝ) < 180)]
    nlinarith only [pi_lb]
  have hhi : radians ((1171821993/50000000:ℝ)) ≤ 409043087/1000000000 := by
    unfold radians
    rw [div_le_iff₀ (by norm_num : (0:ℝ) < 180)]
    nlinarith only [pi_ub]
  constructor
  · have := my_sin_lb hlo (by norm_num) (by linarith only [hhi])
    linarith only [this]
  · have := my_sin_ub hhi (by linarith only [hlo]) (by norm_num)
    linarith only [this]

lemma cosE_d622 : (9148837/10000000:ℝ) ≤ cos (radians (1171821993/50000000)) := by
  have hlo : (204521477/500000000:ℝ) ≤ radians (1171821993/50000000) := by
    unfold radians
    rw [le_div_iff₀ (by norm_num : (0:ℝ) < 180)]
    nlinarith only [pi_lb]
  have hhi : radians ((1171821993/50000000:ℝ)) ≤ 409043087/1000000000 := by
    unfold radians
    rw [div_le_iff₀ (by norm_num : (0:ℝ) < 180)]
    nlinarith only [pi_ub]
  have habs : |radians ((1171821993/50000000:ℝ))| ≤ 409043087/1000000000 :=
    abs_le.mpr ⟨by linarith only [hlo], hhi⟩
  have := my_cos_lb habs (by norm_num)
  linarith only [this]

lemma sinLx622_lb : (4999919/5000000:ℝ) ≤ sin (radians Lx622) := by
  obtain ⟨h1, h2⟩ := radiansLx622_bounds
  have hdev : |radians Lx622 - π / 2| ≤ 11329/2000000 := by
    rw [abs_le]
    constructor <;> nlinarith only [h1, h2, pi_lb, pi_ub]
  have hid : sin (radians Lx622) = cos (radians Lx622 - π / 2) :=
    (cos_sub_pi_div_two _).symm
  rw [hid]
  have := my_cos_lb hdev (by norm_num)
  linarith only [this]

lemma cosLx622_abs : |cos (radians Lx622)| ≤ 11329/2000000 := by
  obtain ⟨h1, h2⟩ := radiansLx622_bounds
  have hdev : |radians Lx622 - π / 2| ≤ 11329/2000000 := by
    rw [abs_le]
    constructor <;> nlinarith only [h1, h2, pi_lb, pi_ub]
  have hid : cos (radians Lx622) = -sin (radians Lx622 - π / 2) := by
    rw [sin_sub_pi_div_two, neg_neg]
  rw [hid, abs_neg]
  exact le_trans abs_sin_le_abs hdev

lemma zv622_bounds : (990429/2500000:ℝ) ≤ zv622 ∧ zv622 ≤ 3990947/10000000 := by
  obtain ⟨h1, h2⟩ := sinE_d622
  have h3 := sinLx622_lb
  have h4 := sin_le_one (radians Lx622)
  unfold zv622
  constructor <;> nlinarith only [h1, h2, h3, h4]

lemma eot_bounds_d622 : (-140968123/46875000:ℝ) ≤ (sunEquation d622).2 ∧
    (sunEquation d622).2 ≤ 140281877/46875000 := by
  rw [eot_eq_d622]
  have hcE := cosE_d622
  have hcE2 := cos_le_one (radians ((1171821993/50000000):ℝ))
  have hsL := sinLx622_lb
  have hsL2 := sin_le_one (radians Lx622)
  have hy : (9148687/10000000:ℝ) ≤ cos (radians (1171821993/50000000)) * sin (radians Lx622) := by
    nlinarith only [hcE, hcE2, hsL, hsL2]
  have hypos : (0:ℝ) < cos (radians (1171821993/50000000)) * sin (radians Lx622) := by
    linarith only [hy]
  have hxy : |cos (radians Lx622)| ≤
      cos (radians (1171821993/50000000)) * sin (radians Lx622) := by
    have := cosLx622_abs
    linarith only [this, hy]
  obtain ⟨hat1, hat2⟩ := atan2_mem_of hypos hxy
  have hd1 : (45:ℝ) ≤ degrees (atan2 (cos (radians (1171821993/50000000)) * sin (radians Lx622))
      (cos (radians Lx622))) := by
    have := degrees_le_degrees hat1
    rwa [degrees_pi_div_four] at this
  have hd2 : degrees (atan2 (cos (radians (1171821993/50000000:ℝ)) * sin (radians Lx622))
      (cos (radians Lx622))) ≤ 135 := by
    have := degrees_le_degrees hat2
    rwa [degrees_three_pi_div_four] at this
  have hmod : realMod (degrees (atan2 (cos (radians (1171821993/50000000:ℝ)) * sin (radians Lx622))
      (cos (radians Lx622))) / 15) 24 =
      degrees (atan2 (cos (radians (1171821993/50000000:ℝ)) * sin (radians Lx622))
        (cos (radians Lx622))) / 15 := by
    apply realMod_eq_self (by norm_num) (by linarith only [hd1]) (by linarith only [hd2])
  rw [hmod]
  constructor <;> linarith only [hd1, hd2]

/-- The datetime 2019-03-20 00:00:00. -/
def d320 : DateTime := ⟨2019, 3, 20, 0, 0, 0, 0⟩

lemma d320_valid : DateTime.Valid d320 := by decide

lemma instant_d320 : instant d320 = 4917125/2 := by
  have h : julianDay d320 = 4917125/2 := by norm_num [julianDay, d320]
  unfold instant
  rw [h]
  norm_num

/-- The apparent ecliptic longitude expression (in degrees) appearing inside
`sunEquation` on this date. -/
noncomputable def Lx320 : ℝ :=
  223274593/625000 + 1.915 * sin (radians (739789649/10000000)) +
    0.020 * sin (2 * radians (739789649/10000000))

/-- The argument of `arcsin` in the declination on this date. -/
noncomputable def zv320 : ℝ := sin (radians (234364737/10000000)) * sin (radians Lx320)

lemma decl_eq_d320 : (sunEquation d320).1 = degrees (arcsin zv320) := by
  have hG : realMod (357.529 + 0.98560028 * ((4917125/2:ℝ) - 2451545.0)) 360 =
      739789649/10000000 := by
    rw [realMod_of_floor 20] <;> norm_num [Int.floor_eq_iff]
  have hQ : realMod (280.459 + 0.98564736 * ((4917125/2:ℝ) - 2451545.0)) 360 =
      223274593/625000 := by
    rw [realMod_of_floor 19] <;> norm_num [Int.floor_eq_iff]
  have hE : realMod (23.439 - 0.00000036 * ((4917125/2:ℝ) - 2451545.0)) 360 =
      234364737/10000000 := by
    rw [realMod_eq_self] <;> norm_num
  unfold sunEquation sunEquationJD
  dsimp only
  rw [instant_d320, hG, hQ, hE, degrees_radians]
  unfold zv320 Lx320
  norm_num

lemma sinG_d320 : (4802939/5000000:ℝ) ≤ sin (radians (739789649/10000000)) ∧
    sin (radians (739789649/10000000:ℝ)) ≤ 9612249/10000000 := by
  have h1 : radians ((160210351/10000000:ℝ)) = π / 2 - radians (739789649/10000000) := by
    unfold radians; ring
  have hid : sin (radians (739789649/10000000:ℝ)) = cos (radians ((160210351/10000000:ℝ))) := by
    rw [h1, cos_pi_div_two_sub]
  have hlo : (34952469/125000000:ℝ) ≤ radians (160210351/10000000) := by
    unfold radians
    rw [le_div_iff₀ (by norm_num : (0:ℝ) < 180)]
    nlinarith only [pi_lb]
  have hhi : radians ((160210351/10000000:ℝ)) ≤ 69904961/250000000 := by
    unfold radians
    rw [div_le_iff₀ (by norm_num : (0:ℝ) < 180)]
    nlinarith only [pi_ub]
  have habs : |radians ((160210351/10000000:ℝ))| ≤ 69904961/250000000 :=
    abs_le.mpr ⟨by linarith only [hlo], hhi⟩
  have habs2 : (34952469/125000000:ℝ) ≤ |radians ((160210351/10000000:ℝ))| := by
    rw [abs_of_nonneg (by linarith only [hlo])]
    exact hlo
  constructor
  · rw [hid]
    have := my_cos_lb habs (by norm_num)
    linarith only [this]
  · rw [hid]
    have := my_cos_ub habs2 (le_trans habs (by norm_num)) (by norm_num)
    linarith only [this]

lemma sin2G_d320 : (5249947/10000000:ℝ) ≤ sin (2 * radians (739789649/10000000)) ∧
    sin (2 * radians (739789649/10000000:ℝ)) ≤ 5351839/10000000 := by
  have h1 : radians ((160210351/5000000:ℝ)) = π - 2 * radians (739789649/10000000) := by
    unfold radians; ring
  have hid : sin (2 * radians (739789649/10000000:ℝ)) = sin (radians ((160210351/5000000:ℝ))) := by
    rw [h1, sin_pi_sub]
  have hlo : (279619753/500000000:ℝ) ≤ radians (160210351/5000000) := by
    unfold radians
    rw [le_div_iff₀ (by norm_num : (0:ℝ) < 180)]
    nlinarith only [pi_lb]
  have hhi : radians ((160210351/5000000:ℝ)) ≤ 559239687/1000000000 := by
    unfold radians
    rw [div_le_iff₀ (by norm_num : (0:ℝ) < 180)]
    nlinarith only [pi_ub]
  constructor
  · rw [hid]
    have := my_sin_lb hlo (by norm_num) (by linarith only [hhi])
    linarith only [this]
  · rw [hid]
    have := my_sin_ub hhi (by linarith only [hlo]) (by norm_num)
    linarith only [this]

lemma Lx320_bounds : (1795446871/5000000:ℝ) ≤ Lx320 ∧ Lx320 ≤ 3590907983/10000000 := by
  obtain ⟨h1, h2⟩ := sinG_d320
  obtain ⟨h3, h4⟩ := sin2G_d320
  unfold Lx320
  constructor <;> linarith only [h1, h2, h3, h4]

lemma radiansLx320_bounds : (7834113/1250000:ℝ) ≤ radians Lx320 ∧
    radians Lx320 ≤ 7834147/1250000 := by
  obtain ⟨h1, h2⟩ := Lx320_bounds
  unfold radians
  constructor
  · rw [le_div_iff₀ (by norm_num : (0:ℝ) < 180)]
    nlinarith only [pi_lb, pi_ub, h1, h2, pi_pos]
  · rw [div_le_iff₀ (by norm_num : (0:ℝ) < 180)]
    nlinarith only [pi_lb, pi_ub, h1, h2, pi_pos]

lemma sinE_d320 : (3961787/10000000:ℝ) ≤ sin (radians (234364737/10000000)) ∧
    sin (radians (234364737/10000000:ℝ)) ≤ 3990953/10000000 := by
  have hlo : (81808709/200000000:ℝ) ≤ radians (234364737/10000000) := by
    unfold radians
    rw [le_div_iff₀ (by norm_num : (0:ℝ) < 180)]
    nlinarith only [pi_lb]
  have hhi : radians ((234364737/10000000:ℝ)) ≤ 204521839/500000000 := by
    unfold radians
    rw [div_le_iff₀ (by norm_num : (0:ℝ) < 180)]
    nlinarith only [pi_ub]
  constructor
  · have := my_sin_lb hlo (by norm_num) (by linarith only [hhi])
    linarith only [this]
  · have := my_sin_ub hhi (by linarith only [hlo]) (by norm_num)
    linarith only [this]

lemma sinLx320_neg : sin (radians Lx320) < 0 := by
  obtain ⟨h1, h2⟩ := radiansLx320_bounds
  have hid : sin (radians Lx320) = sin (radians Lx320 - 2 * π) :=
    (sin_sub_two_pi _).symm
  rw [hid]
  apply sin_neg_of_neg_of_neg_pi_lt
  · nlinarith only [h2, pi_lb]
  · nlinarith only [h1, pi_ub, pi_lb]

lemma decl_neg_d320 : (sunEquation d320).1 < 0 := by
  rw [decl_eq_d320]
  have hz : zv320 < 0 := by
    obtain ⟨h1, h2⟩ := sinE_d320
    have h3 := sinLx320_neg
    unfold zv320
    nlinarith only [h1, h2, h3]
  have harc : arcsin zv320 < 0 := arcsin_lt_zero.mpr hz
  have := degrees_lt_degrees harc
  rwa [degrees_zero] at this

/-- The datetime 2019-03-20 23:59:59. -/
def d320v : DateTime := ⟨2019, 3, 20, 23, 59, 59, 0⟩

lemma d320v_valid : DateTime.Valid d320v := by decide

lemma instant_d320v : instant d320v = 212419886399/86400 := by
  have h : julianDay d320v = 212419886399/86400 := by norm_num [julianDay, d320v]
  unfold instant
  rw [h]
  norm_num

/-- The apparent ecliptic longitude expression (in degrees) appearing inside
`sunEquation` on this date. -/
noncomputable def Lx320v : ℝ :=
  8060062156921/22500000000 + 1.915 * sin (radians (161923436148793/2160000000000)) +
    0.020 * sin (2 * radians (161923436148793/2160000000000))

/-- The argument of `arcsin` in the declination on this date. -/
noncomputable def zv320v : ℝ := sin (radians (5624753601601/240000000000)) * sin (radians Lx320v)

lemma decl_eq_d320v : (sunEquation d320v).1 = degrees (arcsin zv320v) := by
  have hG : realMod (357.529 + 0.98560028 * ((212419886399/86400:ℝ) - 2451545.0)) 360 =
      161923436148793/2160000000000 := by
    rw [realMod_of_floor 20] <;> norm_num [Int.floor_eq_iff]
  have hQ : realMod (280.459 + 0.98564736 * ((212419886399/86400:ℝ) - 2451545.0)) 360 =
      8060062156921/22500000000 := by
    rw [realMod_of_floor 19] <;> norm_num [Int.floor_eq_iff]
  have hE : realMod (23.439 - 0.00000036 * ((212419886399/86400:ℝ) - 2451545.0)) 360 =
      5624753601601/240000000000 := by
    rw [realMod_eq_self] <;> norm_num
  unfold sunEquation sunEquationJD
  dsimp only
  rw [instant_d320v, hG, hQ, hE, degrees_radians]
  unfold zv320v Lx320v
  norm_num

lemma sinG_d320v : (2413303/2500000:ℝ) ≤ sin (radians (161923436148793/2160000000000)) ∧
    sin (radians (161923436148793/2160000000000:ℝ)) ≤ 1931631/2000000 := by
  have h1 : radians ((32476563851207/2160000000000:ℝ)) = π / 2 - radians (161923436148793/2160000000000) := by
    unfold radians; ring
  have hid : sin (radians (161923436148793/2160000000000:ℝ)) = cos (radians ((32476563851207/2160000000000:ℝ))) := by
    rw [h1, cos_pi_div_two_sub]
  have hlo : (52483597/200000000:ℝ) ≤ radians (32476563851207/2160000000000) := by
    unfold radians
    rw [le_div_iff₀ (by norm_num : (0:ℝ) < 180)]
    nlinarith only [pi_lb]
  have hhi : radians ((32476563851207/2160000000000:ℝ)) ≤ 32802259/125000000 := by
    unfold radians
    rw [div_le_iff₀ (by norm_num : (0:ℝ) < 180)]
    nlinarith only [pi_ub]
  have habs : |radians ((32476563851207/2160000000000:ℝ))| ≤ 32802259/125000000 :=
    abs_le.mpr ⟨by linarith only [hlo], hhi⟩
  have habs2 : (52483597/200000000:ℝ) ≤ |radians ((32476563851207/2160000000000:ℝ))| := by
    rw [abs_of_nonneg (by linarith only [hlo])]
    exact hlo
  constructor
  · rw [hid]
    have := my_cos_lb habs (by norm_num)
    linarith only [this]
  · rw [hid]
    have := my_cos_ub habs2 (le_trans habs (by norm_num)) (by norm_num)
    linarith only [this]

lemma sin2G_d320v : (2483947/5000000:ℝ) ≤ sin (2 * radians (161923436148793/2160000000000)) ∧
    sin (2 * radians (161923436148793/2160000000000:ℝ)) ≤ 1009387/2000000 := by
  have h1 : radians ((32476563851207/1080000000000:ℝ)) = π - 2 * radians (161923436148793/2160000000000) := by
    unfold radians; ring
  have hid : sin (2 * radians (161923436148793/2160000000000:ℝ)) = sin (radians ((32476563851207/1080000000000:ℝ))) := by
    rw [h1, sin_pi_sub]
  have hlo : (131208993/250000000:ℝ) ≤ radians (32476563851207/1080000000000) := by
    unfold radians
    rw [le_div_iff₀ (by norm_num : (0:ℝ) < 180)]
    nlinarith only [pi_lb]
  have hhi : radians ((32476563851207/1080000000000:ℝ)) ≤ 262418071/500000000 := by
    unfold radians
    rw [div_le_iff₀ (by norm_num : (0:ℝ) < 180)]
    nlinarith only [pi_ub]
  constructor
  · rw [hid]
    have := my_sin_lb hlo (by norm_num) (by linarith only [hhi])
    linarith only [this]
  · rw [hid]
    have := my_sin_ub hhi (by linarith only [hlo]) (by norm_num)
    linarith only [this]

lemma Lx320v_bounds : (720167021/2000000:ℝ) ≤ Lx320v ∧ Lx320v ≤ 720169231/2000000 := by
  obtain ⟨h1, h2⟩ := sinG_d320v
  obtain ⟨h3, h4⟩ := sin2G_d320v
  unfold Lx320v
  constructor <;> linarith only [h1, h2, h3, h4]

lemma radiansLx320v_bounds : (31423207/5000000:ℝ) ≤ radians Lx320v ∧
    radians Lx320v ≤ 6284663/1000000 := by
  obtain ⟨h1, h2⟩ := Lx320v_bounds
  unfold radians
  constructor
  · rw [le_div_iff₀ (by norm_num : (0:ℝ) < 180)]
    nlinarith only [pi_lb, pi_ub, h1, h2, pi_pos]
  · rw [div_le_iff₀ (by norm_num : (0:ℝ) < 180)]
    nlinarith only [pi_lb, pi_ub, h1, h2, pi_pos]

lemma sinE_d320v : (3961787/10000000:ℝ) ≤ sin (radians (5624753601601/240000000000)) ∧
    sin (radians (5624753601601/240000000000:ℝ)) ≤ 498869/1250000 := by
  have hlo : (204521769/500000000:ℝ) ≤ radians (5624753601601/240000000000) := by
    unfold radians
    rw [le_div_iff₀ (by norm_num : (0:ℝ) < 180)]
    nlinarith only [pi_lb]
  have hhi : radians ((5624753601601/240000000000:ℝ)) ≤ 409043671/1000000000 := by
    unfold radians
    rw [div_le_iff₀ (by norm_num : (0:ℝ) < 180)]
    nlinarith only [pi_ub]
  constructor
  · have := my_sin_lb hlo (by norm_num) (by linarith only [hhi])
    linarith only [this]
  · have := my_sin_ub hhi (by linarith only [hlo]) (by norm_num)
    linarith only [this]

lemma sinLx320v_pos : 0 < sin (radians Lx320v) := by
  obtain ⟨h1, h2⟩ := radiansLx320v_bounds
  have hid : sin (radians Lx320v) = sin (radians Lx320v - 2 * π) :=
    (sin_sub_two_pi _).symm
  rw [hid]
  apply sin_pos_of_pos_of_lt_pi
  · nlinarith only [h1, pi_ub]
  · nlinarith only [h2, pi_lb]

lemma decl_pos_d320v : 0 < (sunEquation d320v).1 := by
  rw [decl_eq_d320v]
  have hz : 0 < zv320v := by
    obtain ⟨h1, h2⟩ := sinE_d320v
    have h3 := sinLx320v_pos
    unfold zv320v
    nlinarith only [h1, h2, h3]
  have harc : 0 < arcsin zv320v := arcsin_pos.mpr hz
  have := degrees_pos harc
  exact this
end ConcreteDates

section ConcreteArgs

lemma my_arcsin_le {z U : ℝ} (hU1 : -(π / 2) ≤ U) (hU2 : U ≤ π / 2)
    (h : z ≤ sin U) : arcsin z ≤ U := by
  have h1 := monotone_arcsin h
  rwa [arcsin_sin hU1 hU2] at h1

lemma my_le_arcsin {z U : ℝ} (hU1 : -(π / 2) ≤ U) (hU2 : U ≤ π / 2)
    (h : sin U ≤ z) : U ≤ arcsin z := by
  have h1 := monotone_arcsin h
  rwa [arcsin_sin hU1 hU2] at h1

lemma sinA185 : (791773/2500000:ℝ) ≤ sin (radians (18.5)) ∧
    sin (radians ((18.5):ℝ)) ≤ 1589209/5000000 := by
  have hlo : (322885843/1000000000:ℝ) ≤ radians (18.5) := by
    unfold radians
    rw [le_div_iff₀ (by norm_num : (0:ℝ) < 180)]
    nlinarith only [pi_lb]
  have hhi : radians ((18.5):ℝ) ≤ 322885949/1000000000 := by
    unfold radians
    rw [div_le_iff₀ (by norm_num : (0:ℝ) < 180)]
    nlinarith only [pi_ub]
  constructor
  · have := my_sin_lb hlo (by norm_num) (by linarith only [hhi])
    linarith only [this]
  · have := my_sin_ub hhi (by linarith only [hlo]) (by norm_num)
    linarith only [this]

lemma sinA0833 : (145379/10000000:ℝ) ≤ sin (radians (0.833)) ∧
    sin (radians ((0.833):ℝ)) ≤ 72691/5000000 := by
  have hlo : (3634647/250000000:ℝ) ≤ radians (0.833) := by
    unfold radians
    rw [le_div_iff₀ (by norm_num : (0:ℝ) < 180)]
    nlinarith only [pi_lb]
  have hhi : radians ((0.833):ℝ) ≤ 3634649/250000000 := by
    unfold radians
    rw [div_le_iff₀ (by norm_num : (0:ℝ) < 180)]
    nlinarith only [pi_ub]
  constructor
  · have := my_sin_lb hlo (by norm_num) (by linarith only [hhi])
    linarith only [this]
  · have := my_sin_ub hhi (by linarith only [hlo]) (by norm_num)
    linarith only [this]

lemma sinLat_m60 : (-866837/1000000:ℝ) ≤ sin (radians (-60)) ∧
    sin (radians ((-60:ℝ))) ≤ -8590073/10000000 := by
  have hneg : radians ((-60:ℝ)) = -radians (60:ℝ) := by unfold radians; ring
  have h1 : radians ((30:ℝ)) = π / 2 - radians (60:ℝ) := by unfold radians; ring
  have hid : sin (radians ((60:ℝ))) = cos (radians ((30:ℝ))) := by
    rw [h1, cos_pi_div_two_sub]
  have hlo : (104719733/200000000:ℝ) ≤ radians (30) := by
    unfold radians
    rw [le_div_iff₀ (by norm_num : (0:ℝ) < 180)]
    nlinarith only [pi_lb]
  have hhi : radians ((30:ℝ)) ≤ 104719767/200000000 := by
    unfold radians
    rw [div_le_iff₀ (by norm_num : (0:ℝ) < 180)]
    nlinarith only [pi_ub]
  have habs : |radians ((30:ℝ))| ≤ 104719767/200000000 :=
    abs_le.mpr ⟨by linarith only [hlo], hhi⟩
  have habs2 : (104719733/200000000:ℝ) ≤ |radians ((30:ℝ))| := by
    rw [abs_of_nonneg (by linarith only [hlo])]
    exact hlo
  have hc1 := my_cos_lb habs (by norm_num)
  have hc2 := my_cos_ub habs2 (le_trans habs (by norm_num)) (by norm_num)
  rw [hneg, sin_neg, hid]
  constructor <;> linarith only [hc1, hc2]

lemma cosLat_m60 : (4957593/10000000:ℝ) ≤ cos (radians (-60)) ∧
    cos (radians ((-60:ℝ))) ≤ 503589/1000000 := by
  have hneg : radians ((-60:ℝ)) = -radians (60:ℝ) := by unfold radians; ring
  have h1 : radians ((30:ℝ)) = π / 2 - radians (60:ℝ) := by unfold radians; ring
  have hid : cos (radians ((60:ℝ))) = sin (radians ((30:ℝ))) := by
    rw [h1, sin_pi_div_two_sub]
  have hlo : (104719733/200000000:ℝ) ≤ radians (30) := by
    unfold radians
    rw [le_div_iff₀ (by norm_num : (0:ℝ) < 180)]
    nlinarith only [pi_lb]
  have hhi : radians ((30:ℝ)) ≤ 104719767/200000000 := by
    unfold radians
    rw [div_le_iff₀ (by norm_num : (0:ℝ) < 180)]
    nlinarith only [pi_ub]
  have hs1 := my_sin_lb hlo (by norm_num) (by linarith only [hhi])
  have hs2 := my_sin_ub hhi (by linarith only [hlo]) (by norm_num)
  rw [hneg, cos_neg, hid]
  constructor <;> linarith only [hs1, hs2]

lemma radLat_m60 : (-261799417/250000000:ℝ) ≤ radians (-60) ∧
    radians ((-60:ℝ)) ≤ -261799333/250000000 := by
  unfold radians
  constructor
  · nlinarith only [pi_ub]
  · nlinarith only [pi_lb]

lemma sinLat_k266 : (890321/2000000:ℝ) ≤ sin (radians (26.6)) ∧
    sin (radians ((26.6:ℝ))) ≤ 9/20 := by
  have hlo : (464257483/1000000000:ℝ) ≤ radians (26.6) := by
    unfold radians
    rw [le_div_iff₀ (by norm_num : (0:ℝ) < 180)]
    nlinarith only [pi_lb]
  have hhi : radians ((26.6:ℝ)) ≤ 232128817/500000000 := by
    unfold radians
    rw [div_le_iff₀ (by norm_num : (0:ℝ) < 180)]
    nlinarith only [pi_ub]
  constructor
  · have := my_sin_lb hlo (by norm_num) (by linarith only [hhi])
    linarith only [this]
  · have := my_sin_ub hhi (by linarith only [hlo]) (by norm_num)
    linarith only [this]

lemma cosLat_k266 : (8898127/10000000:ℝ) ≤ cos (radians (26.6)) ∧
    cos (radians ((26.6:ℝ))) ≤ 4473261/5000000 := by
  have hlo : (464257483/1000000000:ℝ) ≤ radians (26.6) := by
    unfold radians
    rw [le_div_iff₀ (by norm_num : (0:ℝ) < 180)]
    nlinarith only [pi_lb]
  have hhi : radians ((26.6:ℝ)) ≤ 232128817/500000000 := by
    unfold radians
    rw [div_le_iff₀ (by norm_num : (0:ℝ) < 180)]
    nlinarith only [pi_ub]
  have habs : |radians ((26.6:ℝ))| ≤ 232128817/500000000 :=
    abs_le.mpr ⟨by linarith only [hlo], hhi⟩
  have habs2 : (464257483/1000000000:ℝ) ≤ |radians ((26.6:ℝ))| := by
    rw [abs_of_nonneg (by linarith only [hlo])]
    exact hlo
  have hc1 := my_cos_lb habs (by norm_num)
  have hc2 := my_cos_ub habs2 (le_trans habs (by norm_num)) (by norm_num)
  constructor <;> linarith only [hc1, hc2]

lemma radLat_k266 : (464257483/1000000000:ℝ) ≤ radians (26.6) ∧
    radians ((26.6:ℝ)) ≤ 232128817/500000000 := by
  unfold radians
  constructor
  · rw [le_div_iff₀ (by norm_num : (0:ℝ) < 180)]
    nlinarith only [pi_lb]
  · rw [div_le_iff₀ (by norm_num : (0:ℝ) < 180)]
    nlinarith only [pi_ub]

lemma sinLat_k89 : (399939/400000:ℝ) ≤ sin (radians (89)) ∧
    sin (radians ((89:ℝ))) ≤ 4999239/5000000 := by
  have h1 : radians ((1:ℝ)) = π / 2 - radians (89:ℝ) := by unfold radians; ring
  have hid : sin (radians ((89:ℝ))) = cos (radians ((1:ℝ))) := by
    rw [h1, cos_pi_div_two_sub]
  have hlo : (17453287/1000000000:ℝ) ≤ radians (1) := by
    unfold radians
    rw [le_div_iff₀ (by norm_num : (0:ℝ) < 180)]
    nlinarith only [pi_lb]
  have hhi : radians ((1:ℝ)) ≤ 1090831/62500000 := by
    unfold radians
    rw [div_le_iff₀ (by norm_num : (0:ℝ) < 180)]
    nlinarith only [pi_ub]
  have habs : |radians ((1:ℝ))| ≤ 1090831/62500000 :=
    abs_le.mpr ⟨by linarith only [hlo], hhi⟩
  have habs2 : (17453287/1000000000:ℝ) ≤ |radians ((1:ℝ))| := by
    rw [abs_of_nonneg (by linarith only [hlo])]
    exact hlo
  have hc1 := my_cos_lb habs (by norm_num)
  have hc2 := my_cos_ub habs2 (le_trans habs (by norm_num)) (by norm_num)
  rw [hid]
  constructor <;> linarith only [hc1, hc2]

lemma cosLat_k89 : (87261/5000000:ℝ) ≤ cos (radians (89)) ∧
    cos (radians ((89:ℝ))) ≤ 87263/5000000 := by
  have h1 : radians ((1:ℝ)) = π / 2 - radians (89:ℝ) := by unfold radians; ring
  have hid : cos (radians ((89:ℝ))) = sin (radians ((1:ℝ))) := by
    rw [h1, sin_pi_div_two_sub]
  have hlo : (17453287/1000000000:ℝ) ≤ radians (1) := by
    unfold radians
    rw [le_div_iff₀ (by norm_num : (0:ℝ) < 180)]
    nlinarith only [pi_lb]
  have hhi : radians ((1:ℝ)) ≤ 1090831/62500000 := by
    unfold radians
    rw [div_le_iff₀ (by norm_num : (0:ℝ) < 180)]
    nlinarith only [pi_ub]
  have hs1 := my_sin_lb hlo (by norm_num) (by linarith only [hhi])
  have hs2 := my_sin_ub hhi (by linarith only [hlo]) (by norm_num)
  rw [hid]
  constructor <;> linarith only [hs1, hs2]

lemma radiansDec_d621 : radians ((sunEquation d621).1) = arcsin zv621 := by
  rw [decl_eq_d621, radians_degrees]

lemma sinArcsin_zv621 : sin (arcsin zv621) = zv621 := by
  obtain ⟨h1, h2⟩ := zv621_bounds
  exact sin_arcsin (by linarith only [h1]) (by linarith only [h2])

lemma cosArcsin_zv621_bounds : (1146137/1250000:ℝ) ≤ cos (arcsin zv621) ∧
    cos (arcsin zv621) ≤ 4590921/5000000 := by
  obtain ⟨h1, h2⟩ := zv621_bounds
  rw [cos_arcsin]
  exact my_sqrt_bounds (by norm_num) (by nlinarith only [h1, h2])
    (by nlinarith only [h1, h2]) (by norm_num)

lemma arcsinDec_d621_bounds : (126839/312500:ℝ) ≤ arcsin zv621 ∧
    arcsin zv621 ≤ 4122789/10000000 := by
  obtain ⟨h1, h2⟩ := zv621_bounds
  constructor
  · apply my_le_arcsin (by nlinarith only [pi_lb]) (by nlinarith only [pi_lb])
    have := my_sin_ub (le_refl (126839/312500:ℝ)) (by norm_num) (by norm_num)
    linarith only [this, h1]
  · apply my_arcsin_le (by nlinarith only [pi_lb]) (by nlinarith only [pi_lb])
    have := my_sin_lb (le_refl (4122789/10000000:ℝ)) (by norm_num) (by norm_num)
    linarith only [this, h2]

lemma radiansDec_d622 : radians ((sunEquation d622).1) = arcsin zv622 := by
  rw [decl_eq_d622, radians_degrees]

lemma sinArcsin_zv622 : sin (arcsin zv622) = zv622 := by
  obtain ⟨h1, h2⟩ := zv622_bounds
  exact sin_arcsin (by linarith only [h1]) (by linarith only [h2])

lemma cosArcsin_zv622_bounds : (1146137/1250000:ℝ) ≤ cos (arcsin zv622) ∧
    cos (arcsin zv622) ≤ 4590883/5000000 := by
  obtain ⟨h1, h2⟩ := zv622_bounds
  rw [cos_arcsin]
  exact my_sqrt_bounds (by norm_num) (by nlinarith only [h1, h2])
    (by nlinarith only [h1, h2]) (by norm_num)

lemma arcsinDec_d622_bounds : (4059037/10000000:ℝ) ≤ arcsin zv622 ∧
    arcsin zv622 ≤ 4122789/10000000 := by
  obtain ⟨h1, h2⟩ := zv622_bounds
  constructor
  · apply my_le_arcsin (by nlinarith only [pi_lb]) (by nlinarith only [pi_lb])
    have := my_sin_ub (le_refl (4059037/10000000:ℝ)) (by norm_num) (by norm_num)
    linarith only [this, h1]
  · apply my_arcsin_le (by nlinarith only [pi_lb]) (by nlinarith only [pi_lb])
    have := my_sin_lb (le_refl (4122789/10000000:ℝ)) (by norm_num) (by norm_num)
    linarith only [this, h2]

lemma cos_18125_ub : cos ((1.8125:ℝ)) ≤ -(1195861/5000000) := by
  have hid : cos ((1.8125:ℝ)) = -sin ((1.8125:ℝ) - π / 2) := by
    rw [sin_sub_pi_div_two, neg_neg]
  have hs1 : (483407/2000000:ℝ) ≤ (1.8125:ℝ) - π / 2 := by
    linarith only [pi_ub]
  have hs2 : (1.8125:ℝ) - π / 2 ≤ 30213/125000 := by
    linarith only [pi_lb]
  have := my_sin_lb hs1 (by norm_num) (by linarith only [hs2])
  rw [hid]
  linarith only [this]

lemma cos_226_ub : cos ((2.26:ℝ)) ≤ -(6228899/10000000) := by
  have hid : cos ((2.26:ℝ)) = -sin ((2.26:ℝ) - π / 2) := by
    rw [sin_sub_pi_div_two, neg_neg]
  have hs1 : (1378407/2000000:ℝ) ≤ (2.26:ℝ) - π / 2 := by
    linarith only [pi_ub]
  have hs2 : (2.26:ℝ) - π / 2 ≤ 172301/250000 := by
    linarith only [pi_lb]
  have := my_sin_lb hs1 (by norm_num) (by linarith only [hs2])
  rw [hid]
  linarith only [this]

lemma argF_m60_d621 : (242839/5000000:ℝ) ≤ horizonArg 18.5 (-60) ((sunEquation d621).1) ∧
    horizonArg 18.5 (-60) ((sunEquation d621).1) ≤ 321637/5000000 := by
  obtain ⟨ha1, ha2⟩ := sinA185
  obtain ⟨hl1, hl2⟩ := sinLat_m60
  obtain ⟨hc1, hc2⟩ := cosLat_m60
  obtain ⟨hz1, hz2⟩ := zv621_bounds
  obtain ⟨hw1, hw2⟩ := cosArcsin_zv621_bounds
  unfold horizonArg
  rw [radiansDec_d621, sinArcsin_zv621]
  have hprod : (-1729751/5000000:ℝ) ≤ sin (radians (((-60)):ℝ)) * zv621 ∧
      sin (radians (((-60)):ℝ)) * zv621 ≤ -340299/1000000 := by
    constructor <;> nlinarith only [hl1, hl2, hz1, hz2]
  have hden : (4545663/10000000:ℝ) ≤ cos (radians (((-60)):ℝ)) * cos (arcsin zv621) ∧
      cos (radians (((-60)):ℝ)) * cos (arcsin zv621) ≤ 1155969/2500000 := by
    constructor <;> nlinarith only [hc1, hc2, hw1, hw2]
  have hdpos : (0:ℝ) < cos (radians (((-60)):ℝ)) * cos (arcsin zv621) := by
    linarith only [hden.1]
  constructor
  · rw [le_div_iff₀ hdpos]
    linarith only [hprod.1, hprod.2, ha1, ha2, hden.1, hden.2]
  · rw [div_le_iff₀ hdpos]
    linarith only [hprod.1, hprod.2, ha1, ha2, hden.1, hden.2]

lemma argM_m60_d621 : (7045187/10000000:ℝ) ≤ horizonArg 0.833 (-60) ((sunEquation d621).1) ∧
    horizonArg 0.833 (-60) ((sunEquation d621).1) ≤ 3645369/5000000 := by
  obtain ⟨ha1, ha2⟩ := sinA0833
  obtain ⟨hl1, hl2⟩ := sinLat_m60
  obtain ⟨hc1, hc2⟩ := cosLat_m60
  obtain ⟨hz1, hz2⟩ := zv621_bounds
  obtain ⟨hw1, hw2⟩ := cosArcsin_zv621_bounds
  unfold horizonArg
  rw [radiansDec_d621, sinArcsin_zv621]
  have hprod : (-1729751/5000000:ℝ) ≤ sin (radians (((-60)):ℝ)) * zv621 ∧
      sin (radians (((-60)):ℝ)) * zv621 ≤ -340299/1000000 := by
    constructor <;> nlinarith only [hl1, hl2, hz1, hz2]
  have hden : (4545663/10000000:ℝ) ≤ cos (radians (((-60)):ℝ)) * cos (arcsin zv621) ∧
      cos (radians (((-60)):ℝ)) * cos (arcsin zv621) ≤ 1155969/2500000 := by
    constructor <;> nlinarith only [hc1, hc2, hw1, hw2]
  have hdpos : (0:ℝ) < cos (radians (((-60)):ℝ)) * cos (arcsin zv621) := by
    linarith only [hden.1]
  constructor
  · rw [le_div_iff₀ hdpos]
    linarith only [hprod.1, hprod.2, ha1, ha2, hden.1, hden.2]
  · rw [div_le_iff₀ hdpos]
    linarith only [hprod.1, hprod.2, ha1, ha2, hden.1, hden.2]

lemma argA_m60_d621 : (2240651/5000000:ℝ) ≤ asrArg 1 (-60) ((sunEquation d621).1) ∧
    asrArg 1 (-60) ((sunEquation d621).1) ≤ 4866821/10000000 := by
  obtain ⟨hl1, hl2⟩ := sinLat_m60
  obtain ⟨hc1, hc2⟩ := cosLat_m60
  obtain ⟨hr1, hr2⟩ := radLat_m60
  obtain ⟨hz1, hz2⟩ := zv621_bounds
  obtain ⟨hw1, hw2⟩ := cosArcsin_zv621_bounds
  obtain ⟨hU1, hU2⟩ := arcsinDec_d621_bounds
  unfold asrArg
  rw [radiansDec_d621, sinArcsin_zv621]
  have hth1 : (-182434571/125000000:ℝ) ≤ radians (((-60)):ℝ) - arcsin zv621 := by
    linarith only [hr1, hU2]
  have hth2 : radians (((-60)):ℝ) - arcsin zv621 ≤ -363270533/250000000 := by
    linarith only [hr2, hU1]
  have hsh1 : (111319431/1000000000:ℝ) ≤ radians (((-60)):ℝ) - arcsin zv621 + π / 2 := by
    linarith only [hth1, pi_lb]
  have hsh2 : radians (((-60)):ℝ) - arcsin zv621 + π / 2 ≤ 117714369/1000000000 := by
    linarith only [hth2, pi_ub]
  have habs : |radians (((-60)):ℝ) - arcsin zv621 + π / 2| ≤ 117714369/1000000000 :=
    abs_le.mpr ⟨by linarith only [hsh1], hsh2⟩
  have habs2 : (111319431/1000000000:ℝ) ≤ |radians (((-60)):ℝ) - arcsin zv621 + π / 2| := by
    rw [abs_of_nonneg (by linarith only [hsh1])]
    exact hsh1
  have hcs1 := my_cos_lb habs (by norm_num)
  have hcs2 := my_cos_ub habs2 (le_trans habs (by norm_num)) (by norm_num)
  have hsins : (-9938121/10000000:ℝ) ≤ sin (radians (((-60)):ℝ) - arcsin zv621) ∧
      sin (radians (((-60)):ℝ) - arcsin zv621) ≤ -1986123/2000000 := by
    have hid : sin (radians (((-60)):ℝ) - arcsin zv621) =
        -cos (radians (((-60)):ℝ) - arcsin zv621 + π / 2) := by
      rw [cos_add_pi_div_two, neg_neg]
    rw [hid]
    constructor <;> linarith only [hcs1, hcs2]
  have hss1 := my_sin_lb hsh1 (by norm_num) (by linarith only [hsh2])
  have hss2 := my_sin_ub hsh2 (by linarith only [hsh1]) (by norm_num)
  have hcoss : (555407/5000000:ℝ) ≤ cos (radians (((-60)):ℝ) - arcsin zv621) ∧
      cos (radians (((-60)):ℝ) - arcsin zv621) ≤ 1174527/10000000 := by
    have hid : cos (radians (((-60)):ℝ) - arcsin zv621) =
        sin (radians (((-60)):ℝ) - arcsin zv621 + π / 2) :=
      (sin_add_pi_div_two _).symm
    rw [hid]
    constructor <;> linarith only [hss1, hss2]
  have htan : (-44733507/5000000:ℝ) ≤ tan (radians (((-60)):ℝ) - arcsin zv621) ∧
      tan (radians (((-60)):ℝ) - arcsin zv621) ≤ -84549907/10000000 := by
    rw [tan_eq_sin_div_cos]
    have hcpos : (0:ℝ) < cos (radians (((-60)):ℝ) - arcsin zv621) := by
      linarith only [hcoss.1]
    constructor
    · rw [le_div_iff₀ hcpos]
      linarith only [hsins.1, hsins.2, hcoss.1, hcoss.2]
    · rw [div_le_iff₀ hcpos]
      linarith only [hsins.1, hsins.2, hcoss.1, hcoss.2]
  have hxneg : 1 + tan (radians (((-60)):ℝ) - arcsin zv621) < 0 := by
    linarith only [htan.2]
  have hu1 : (-268277/2000000:ℝ) ≤ 1 / (1 + tan (radians (((-60)):ℝ) - arcsin zv621)) := by
    rw [le_div_iff_of_neg hxneg]
    linarith only [htan.1, htan.2]
  have hu2 : 1 / (1 + tan (radians (((-60)):ℝ) - arcsin zv621)) ≤ -629191/5000000 := by
    rw [div_le_iff_of_neg hxneg]
    linarith only [htan.1, htan.2]
  obtain ⟨UX, hUX⟩ : ∃ v, 1 / (1 + tan (radians (((-60)):ℝ) - arcsin zv621)) = v :=
    ⟨_, rfl⟩
  rw [hUX] at hu1 hu2 ⊢
  rw [sin_arctan]
  have hv : (629929/625000:ℝ) ≤ √(1 + UX ^ 2) ∧ √(1 + UX ^ 2) ≤ 5044783/5000000 :=
    my_sqrt_bounds (by norm_num) (by nlinarith only [hu1, hu2])
      (by nlinarith only [hu1, hu2]) (by norm_num)
  have hvpos : (0:ℝ) < √(1 + UX ^ 2) := by linarith only [hv.1]
  have hs1 : (-1330891/10000000:ℝ) ≤ UX / √(1 + UX ^ 2) := by
    rw [le_div_iff₀ hvpos]
    linarith only [hv.1, hv.2, hu1]
  have hs2 : UX / √(1 + UX ^ 2) ≤ -124721/1000000 := by
    rw [div_le_iff₀ hvpos]
    linarith only [hv.1, hv.2, hu2]
  have hprod : (-1729751/5000000:ℝ) ≤ sin (radians (((-60)):ℝ)) * zv621 ∧
      sin (radians (((-60)):ℝ)) * zv621 ≤ -340299/1000000 := by
    constructor <;> nlinarith only [hl1, hl2, hz1, hz2]
  have hden : (4545663/10000000:ℝ) ≤ cos (radians (((-60)):ℝ)) * cos (arcsin zv621) ∧
      cos (radians (((-60)):ℝ)) * cos (arcsin zv621) ≤ 1155969/2500000 := by
    constructor <;> nlinarith only [hc1, hc2, hw1, hw2]
  have hdpos : (0:ℝ) < cos (radians (((-60)):ℝ)) * cos (arcsin zv621) := by
    linarith only [hden.1]
  constructor
  · rw [le_div_iff₀ hdpos]
    linarith only [hs1, hs2, hprod.1, hprod.2, hden.1, hden.2]
  · rw [div_le_iff₀ hdpos]
    linarith only [hs1, hs2, hprod.1, hprod.2, hden.1, hden.2]

lemma argF_k266_d621 : (-190529/312500:ℝ) ≤ horizonArg 18.5 26.6 ((sunEquation d621).1) ∧
    horizonArg 18.5 26.6 ((sunEquation d621).1) ≤ -1500571/2500000 := by
  obtain ⟨ha1, ha2⟩ := sinA185
  obtain ⟨hl1, hl2⟩ := sinLat_k266
  obtain ⟨hc1, hc2⟩ := cosLat_k266
  obtain ⟨hz1, hz2⟩ := zv621_bounds
  obtain ⟨hw1, hw2⟩ := cosArcsin_zv621_bounds
  unfold horizonArg
  rw [radiansDec_d621, sinArcsin_zv621]
  have hprod : (5511/31250:ℝ) ≤ sin (radians ((26.6):ℝ)) * zv621 ∧
      sin (radians ((26.6):ℝ)) * zv621 ≤ 224491/1250000 := by
    constructor <;> nlinarith only [hl1, hl2, hz1, hz2]
  have hden : (8158777/10000000:ℝ) ≤ cos (radians ((26.6):ℝ)) * cos (arcsin zv621) ∧
      cos (radians ((26.6):ℝ)) * cos (arcsin zv621) ≤ 8214557/10000000 := by
    constructor <;> nlinarith only [hc1, hc2, hw1, hw2]
  have hdpos : (0:ℝ) < cos (radians ((26.6):ℝ)) * cos (arcsin zv621) := by
    linarith only [hden.1]
  constructor
  · rw [le_div_iff₀ hdpos]
    linarith only [hprod.1, hprod.2, ha1, ha2, hden.1, hden.2]
  · rw [div_le_iff₀ hdpos]
    linarith only [hprod.1, hprod.2, ha1, ha2, hden.1, hden.2]

lemma argM_k266_d621 : (-1189707/5000000:ℝ) ≤ horizonArg 0.833 26.6 ((sunEquation d621).1) ∧
    horizonArg 0.833 26.6 ((sunEquation d621).1) ≤ -2323799/10000000 := by
  obtain ⟨ha1, ha2⟩ := sinA0833
  obtain ⟨hl1, hl2⟩ := sinLat_k266
  obtain ⟨hc1, hc2⟩ := cosLat_k266
  obtain ⟨hz1, hz2⟩ := zv621_bounds
  obtain ⟨hw1, hw2⟩ := cosArcsin_zv621_bounds
  unfold horizonArg
  rw [radiansDec_d621, sinArcsin_zv621]
  have hprod : (5511/31250:ℝ) ≤ sin (radians ((26.6):ℝ)) * zv621 ∧
      sin (radians ((26.6):ℝ)) * zv621 ≤ 224491/1250000 := by
    constructor <;> nlinarith only [hl1, hl2, hz1, hz2]
  have hden : (8158777/10000000:ℝ) ≤ cos (radians ((26.6):ℝ)) * cos (arcsin zv621) ∧
      cos (radians ((26.6):ℝ)) * cos (arcsin zv621) ≤ 8214557/10000000 := by
    constructor <;> nlinarith only [hc1, hc2, hw1, hw2]
  have hdpos : (0:ℝ) < cos (radians ((26.6):ℝ)) * cos (arcsin zv621) := by
    linarith only [hden.1]
  constructor
  · rw [le_div_iff₀ hdpos]
    linarith only [hprod.1, hprod.2, ha1, ha2, hden.1, hden.2]
  · rw [div_le_iff₀ hdpos]
    linarith only [hprod.1, hprod.2, ha1, ha2, hden.1, hden.2]

lemma argA_k266_d621 : (3074961/5000000:ℝ) ≤ asrArg 1 26.6 ((sunEquation d621).1) ∧
    asrArg 1 26.6 ((sunEquation d621).1) ≤ 3153607/5000000 := by
  obtain ⟨hl1, hl2⟩ := sinLat_k266
  obtain ⟨hc1, hc2⟩ := cosLat_k266
  obtain ⟨hr1, hr2⟩ := radLat_k266
  obtain ⟨hz1, hz2⟩ := zv621_bounds
  obtain ⟨hw1, hw2⟩ := cosArcsin_zv621_bounds
  obtain ⟨hU1, hU2⟩ := arcsinDec_d621_bounds
  unfold asrArg
  rw [radiansDec_d621, sinArcsin_zv621]
  have hth1 : (51978583/1000000000:ℝ) ≤ radians ((26.6):ℝ) - arcsin zv621 := by
    linarith only [hr1, hU2]
  have hth2 : radians ((26.6):ℝ) - arcsin zv621 ≤ 29186417/500000000 := by
    linarith only [hr2, hU1]
  have hsins : (259773/5000000:ℝ) ≤ sin (radians ((26.6):ℝ) - arcsin zv621) ∧
      sin (radians ((26.6):ℝ) - arcsin zv621) ≤ 145851/2500000 := by
    constructor
    · have := my_sin_lb hth1 (by norm_num) (by linarith only [hth2])
      linarith only [this]
    · have := my_sin_ub hth2 (by linarith only [hth1]) (by norm_num)
      linarith only [this]
  have habs : |radians ((26.6):ℝ) - arcsin zv621| ≤ 29186417/500000000 :=
    abs_le.mpr ⟨by linarith only [hth1], hth2⟩
  have habs2 : (51978583/1000000000:ℝ) ≤ |radians ((26.6):ℝ) - arcsin zv621| := by
    rw [abs_of_nonneg (by linarith only [hth1])]
    exact hth1
  have hcoss : (2495739/2500000:ℝ) ≤ cos (radians ((26.6):ℝ) - arcsin zv621) ∧
      cos (radians ((26.6):ℝ) - arcsin zv621) ≤ 156039/156250 := by
    have hc1 := my_cos_lb habs (by norm_num)
    have hc2 := my_cos_ub habs2 (le_trans habs (by norm_num)) (by norm_num)
    constructor <;> linarith only [hc1, hc2]
  have htan : (520247/10000000:ℝ) ≤ tan (radians ((26.6):ℝ) - arcsin zv621) ∧
      tan (radians ((26.6):ℝ) - arcsin zv621) ≤ 292201/5000000 := by
    rw [tan_eq_sin_div_cos]
    have hcpos : (0:ℝ) < cos (radians ((26.6):ℝ) - arcsin zv621) := by
      linarith only [hcoss.1]
    constructor
    · rw [le_div_iff₀ hcpos]
      linarith only [hsins.1, hsins.2, hcoss.1, hcoss.2]
    · rw [div_le_iff₀ hcpos]
      linarith only [hsins.1, hsins.2, hcoss.1, hcoss.2]
  have hxpos : (0:ℝ) < 1 + tan (radians ((26.6):ℝ) - arcsin zv621) := by
    linarith only [htan.1]
  have hu1 : (9447863/10000000:ℝ) ≤ 1 / (1 + tan (radians ((26.6):ℝ) - arcsin zv621)) := by
    rw [le_div_iff₀ hxpos]
    linarith only [htan.1, htan.2]
  have hu2 : 1 / (1 + tan (radians ((26.6):ℝ) - arcsin zv621)) ≤ 4752741/5000000 := by
    rw [div_le_iff₀ hxpos]
    linarith only [htan.1, htan.2]
  obtain ⟨UX, hUX⟩ : ∃ v, 1 / (1 + tan (radians ((26.6):ℝ) - arcsin zv621)) = v :=
    ⟨_, rfl⟩
  rw [hUX] at hu1 hu2 ⊢
  rw [sin_arctan]
  have hv : (2751451/2000000:ℝ) ≤ √(1 + UX ^ 2) ∧ √(1 + UX ^ 2) ≤ 3449223/2500000 :=
    my_sqrt_bounds (by norm_num) (by nlinarith only [hu1, hu2])
      (by nlinarith only [hu1, hu2]) (by norm_num)
  have hvpos : (0:ℝ) < √(1 + UX ^ 2) := by linarith only [hv.1]
  have hs1 : (3423909/5000000:ℝ) ≤ UX / √(1 + UX ^ 2) := by
    rw [le_div_iff₀ hvpos]
    linarith only [hv.1, hv.2, hu1]
  have hs2 : UX / √(1 + UX ^ 2) ≤ 3454717/5000000 := by
    rw [div_le_iff₀ hvpos]
    linarith only [hv.1, hv.2, hu2]
  have hprod : (5511/31250:ℝ) ≤ sin (radians ((26.6):ℝ)) * zv621 ∧
      sin (radians ((26.6):ℝ)) * zv621 ≤ 224491/1250000 := by
    constructor <;> nlinarith only [hl1, hl2, hz1, hz2]
  have hden : (8158777/10000000:ℝ) ≤ cos (radians ((26.6):ℝ)) * cos (arcsin zv621) ∧
      cos (radians ((26.6):ℝ)) * cos (arcsin zv621) ≤ 8214557/10000000 := by
    constructor <;> nlinarith only [hc1, hc2, hw1, hw2]
  have hdpos : (0:ℝ) < cos (radians ((26.6):ℝ)) * cos (arcsin zv621) := by
    linarith only [hden.1]
  constructor
  · rw [le_div_iff₀ hdpos]
    linarith only [hs1, hs2, hprod.1, hprod.2, hden.1, hden.2]
  · rw [div_le_iff₀ hdpos]
    linarith only [hs1, hs2, hprod.1, hprod.2, hden.1, hden.2]

lemma argF_k266_d622 : (-190529/312500:ℝ) ≤ horizonArg 18.5 26.6 ((sunEquation d622).1) ∧
    horizonArg 18.5 26.6 ((sunEquation d622).1) ≤ -6002429/10000000 := by
  obtain ⟨ha1, ha2⟩ := sinA185
  obtain ⟨hl1, hl2⟩ := sinLat_k266
  obtain ⟨hc1, hc2⟩ := cosLat_k266
  obtain ⟨hz1, hz2⟩ := zv622_bounds
  obtain ⟨hw1, hw2⟩ := cosArcsin_zv622_bounds
  unfold horizonArg
  rw [radiansDec_d622, sinArcsin_zv622]
  have hprod : (881799/5000000:ℝ) ≤ sin (radians ((26.6):ℝ)) * zv622 ∧
      sin (radians ((26.6):ℝ)) * zv622 ≤ 224491/1250000 := by
    constructor <;> nlinarith only [hl1, hl2, hz1, hz2]
  have hden : (8158777/10000000:ℝ) ≤ cos (radians ((26.6):ℝ)) * cos (arcsin zv622) ∧
      cos (radians ((26.6):ℝ)) * cos (arcsin zv622) ≤ 8214489/10000000 := by
    constructor <;> nlinarith only [hc1, hc2, hw1, hw2]
  have hdpos : (0:ℝ) < cos (radians ((26.6):ℝ)) * cos (arcsin zv622) := by
    linarith only [hden.1]
  constructor
  · rw [le_div_iff₀ hdpos]
    linarith only [hprod.1, hprod.2, ha1, ha2, hden.1, hden.2]
  · rw [div_le_iff₀ hdpos]
    linarith only [hprod.1, hprod.2, ha1, ha2, hden.1, hden.2]

lemma argM_k266_d622 : (-1189707/5000000:ℝ) ≤ horizonArg 0.833 26.6 ((sunEquation d622).1) ∧
    horizonArg 0.833 26.6 ((sunEquation d622).1) ≤ -2323913/10000000 := by
  obtain ⟨ha1, ha2⟩ := sinA0833
  obtain ⟨hl1, hl2⟩ := sinLat_k266
  obtain ⟨hc1, hc2⟩ := cosLat_k266
  obtain ⟨hz1, hz2⟩ := zv622_bounds
  obtain ⟨hw1, hw2⟩ := cosArcsin_zv622_bounds
  unfold horizonArg
  rw [radiansDec_d622, sinArcsin_zv622]
  have hprod : (881799/5000000:ℝ) ≤ sin (radians ((26.6):ℝ)) * zv622 ∧
      sin (radians ((26.6):ℝ)) * zv622 ≤ 224491/1250000 := by
    constructor <;> nlinarith only [hl1, hl2, hz1, hz2]
  have hden : (8158777/10000000:ℝ) ≤ cos (radians ((26.6):ℝ)) * cos (arcsin zv622) ∧
      cos (radians ((26.6):ℝ)) * cos (arcsin zv622) ≤ 8214489/10000000 := by
    constructor <;> nlinarith only [hc1, hc2, hw1, hw2]
  have hdpos : (0:ℝ) < cos (radians ((26.6):ℝ)) * cos (arcsin zv622) := by
    linarith only [hden.1]
  constructor
  · rw [le_div_iff₀ hdpos]
    linarith only [hprod.1, hprod.2, ha1, ha2, hden.1, hden.2]
  · rw [div_le_iff₀ hdpos]
    linarith only [hprod.1, hprod.2, ha1, ha2, hden.1, hden.2]

lemma argA_k266_d622 : (6150123/10000000:ℝ) ≤ asrArg 1 26.6 ((sunEquation d622).1) ∧
    asrArg 1 26.6 ((sunEquation d622).1) ≤ 3153523/5000000 := by
  obtain ⟨hl1, hl2⟩ := sinLat_k266
  obtain ⟨hc1, hc2⟩ := cosLat_k266
  obtain ⟨hr1, hr2⟩ := radLat_k266
  obtain ⟨hz1, hz2⟩ := zv622_bounds
  obtain ⟨hw1, hw2⟩ := cosArcsin_zv622_bounds
  obtain ⟨hU1, hU2⟩ := arcsinDec_d622_bounds
  unfold asrArg
  rw [radiansDec_d622, sinArcsin_zv622]
  have hth1 : (51978583/1000000000:ℝ) ≤ radians ((26.6):ℝ) - arcsin zv622 := by
    linarith only [hr1, hU2]
  have hth2 : radians ((26.6):ℝ) - arcsin zv622 ≤ 29176967/500000000 := by
    linarith only [hr2, hU1]
  have hsins : (259773/5000000:ℝ) ≤ sin (radians ((26.6):ℝ) - arcsin zv622) ∧
      sin (radians ((26.6):ℝ) - arcsin zv622) ≤ 36451/625000 := by
    constructor
    · have := my_sin_lb hth1 (by norm_num) (by linarith only [hth2])
      linarith only [this]
    · have := my_sin_ub hth2 (by linarith only [hth1]) (by norm_num)
      linarith only [this]
  have habs : |radians ((26.6):ℝ) - arcsin zv622| ≤ 29176967/500000000 :=
    abs_le.mpr ⟨by linarith only [hth1], hth2⟩
  have habs2 : (51978583/1000000000:ℝ) ≤ |radians ((26.6):ℝ) - arcsin zv622| := by
    rw [abs_of_nonneg (by linarith only [hth1])]
    exact hth1
  have hcoss : (9982967/10000000:ℝ) ≤ cos (radians ((26.6):ℝ) - arcsin zv622) ∧
      cos (radians ((26.6):ℝ) - arcsin zv622) ≤ 156039/156250 := by
    have hc1 := my_cos_lb habs (by norm_num)
    have hc2 := my_cos_ub habs2 (le_trans habs (by norm_num)) (by norm_num)
    constructor <;> linarith only [hc1, hc2]
  have htan : (520247/10000000:ℝ) ≤ tan (radians ((26.6):ℝ) - arcsin zv622) ∧
      tan (radians ((26.6):ℝ) - arcsin zv622) ≤ 584213/10000000 := by
    rw [tan_eq_sin_div_cos]
    have hcpos : (0:ℝ) < cos (radians ((26.6):ℝ) - arcsin zv622) := by
      linarith only [hcoss.1]
    constructor
    · rw [le_div_iff₀ hcpos]
      linarith only [hsins.1, hsins.2, hcoss.1, hcoss.2]
    · rw [div_le_iff₀ hcpos]
      linarith only [hsins.1, hsins.2, hcoss.1, hcoss.2]
  have hxpos : (0:ℝ) < 1 + tan (radians ((26.6):ℝ) - arcsin zv622) := by
    linarith only [htan.1]
  have hu1 : (295251/312500:ℝ) ≤ 1 / (1 + tan (radians ((26.6):ℝ) - arcsin zv622)) := by
    rw [le_div_iff₀ hxpos]
    linarith only [htan.1, htan.2]
  have hu2 : 1 / (1 + tan (radians ((26.6):ℝ) - arcsin zv622)) ≤ 4752741/5000000 := by
    rw [div_le_iff₀ hxpos]
    linarith only [htan.1, htan.2]
  obtain ⟨UX, hUX⟩ : ∃ v, 1 / (1 + tan (radians ((26.6):ℝ) - arcsin zv622)) = v :=
    ⟨_, rfl⟩
  rw [hUX] at hu1 hu2 ⊢
  rw [sin_arctan]
  have hv : (13757371/10000000:ℝ) ≤ √(1 + UX ^ 2) ∧ √(1 + UX ^ 2) ≤ 3449223/2500000 :=
    my_sqrt_bounds (by norm_num) (by nlinarith only [hu1, hu2])
      (by nlinarith only [hu1, hu2]) (by norm_num)
  have hvpos : (0:ℝ) < √(1 + UX ^ 2) := by linarith only [hv.1]
  have hs1 : (6847941/10000000:ℝ) ≤ UX / √(1 + UX ^ 2) := by
    rw [le_div_iff₀ hvpos]
    linarith only [hv.1, hv.2, hu1]
  have hs2 : UX / √(1 + UX ^ 2) ≤ 2211/3200 := by
    rw [div_le_iff₀ hvpos]
    linarith only [hv.1, hv.2, hu2]
  have hprod : (881799/5000000:ℝ) ≤ sin (radians ((26.6):ℝ)) * zv622 ∧
      sin (radians ((26.6):ℝ)) * zv622 ≤ 224491/1250000 := by
    constructor <;> nlinarith only [hl1, hl2, hz1, hz2]
  have hden : (8158777/10000000:ℝ) ≤ cos (radians ((26.6):ℝ)) * cos (arcsin zv622) ∧
      cos (radians ((26.6):ℝ)) * cos (arcsin zv622) ≤ 8214489/10000000 := by
    constructor <;> nlinarith only [hc1, hc2, hw1, hw2]
  have hdpos : (0:ℝ) < cos (radians ((26.6):ℝ)) * cos (arcsin zv622) := by
    linarith only [hden.1]
  constructor
  · rw [le_div_iff₀ hdpos]
    linarith only [hs1, hs2, hprod.1, hprod.2, hden.1, hden.2]
  · rw [div_le_iff₀ hdpos]
    linarith only [hs1, hs2, hprod.1, hprod.2, hden.1, hden.2]

lemma argF_k89_d621_lt : horizonArg 18.5 89 ((sunEquation d621).1) < -1 := by
  obtain ⟨ha1, ha2⟩ := sinA185
  obtain ⟨hl1, hl2⟩ := sinLat_k89
  obtain ⟨hc1, hc2⟩ := cosLat_k89
  obtain ⟨hz1, hz2⟩ := zv621_bounds
  obtain ⟨hw1, hw2⟩ := cosArcsin_zv621_bounds
  unfold horizonArg
  rw [radiansDec_d621, sinArcsin_zv621]
  have hprod : (1980467/5000000:ℝ) ≤ sin (radians ((89):ℝ)) * zv621 ∧
      sin (radians ((89):ℝ)) * zv621 ≤ 3990341/10000000 := by
    constructor <;> nlinarith only [hl1, hl2, hz1, hz2]
  have hden : (160019/10000000:ℝ) ≤ cos (radians ((89):ℝ)) * cos (arcsin zv621) ∧
      cos (radians ((89):ℝ)) * cos (arcsin zv621) ≤ 160249/10000000 := by
    constructor <;> nlinarith only [hc1, hc2, hw1, hw2]
  have hdpos : (0:ℝ) < cos (radians ((89):ℝ)) * cos (arcsin zv621) := by
    linarith only [hden.1]
  rw [div_lt_iff₀ hdpos]
  linarith only [hprod.1, ha1, hden.2]
end ConcreteArgs

section ConcreteTables

/-- A failing fajr horizon equation aborts the whole table computation (the
source computes fajr first among the four equation-based prayers). -/
lemma computeAll_fajr_error {date : DateTime} {LON LAT tz : ℝ} {fic ac : String}
    {fAng : ℝ} {iAng : IshaParam} {sha : ℝ} {e : PrayerError}
    (hfa : fajrIshaAngle fic = some (fAng, iAng))
    (hsh : asrShadow ac = some sha)
    (hFeq : horizonEquation fAng LAT (sunEquation date).1 = .error e) :
    computeAllPrayerTimes date (LON, LAT) tz fic ac = .error e := by
  unfold computeAllPrayerTimes
  rw [hfa, hsh]
  dsimp only
  unfold computeFajr
  rw [hFeq]

lemma hF_k266_d621_ok :
    horizonEquation 18.5 26.6 ((sunEquation d621).1) =
      .ok (1 / 15 * degrees (arccos (horizonArg 18.5 26.6 ((sunEquation d621).1)))) := by
  apply horizonEquation_eq_ok
  obtain ⟨h1, h2⟩ := argF_k266_d621
  exact ⟨by linarith only [h1], by linarith only [h2]⟩

lemma hA_k266_d621_ok :
    asrEquation 1 26.6 ((sunEquation d621).1) =
      .ok (1 / 15 * degrees (arccos (asrArg 1 26.6 ((sunEquation d621).1)))) := by
  apply asrEquation_eq_ok
  obtain ⟨h1, h2⟩ := argA_k266_d621
  exact ⟨by linarith only [h1], by linarith only [h2]⟩

lemma hM_k266_d621_ok :
    horizonEquation 0.833 26.6 ((sunEquation d621).1) =
      .ok (1 / 15 * degrees (arccos (horizonArg 0.833 26.6 ((sunEquation d621).1)))) := by
  apply horizonEquation_eq_ok
  obtain ⟨h1, h2⟩ := argM_k266_d621
  exact ⟨by linarith only [h1], by linarith only [h2]⟩

lemma hF_k266_d622_ok :
    horizonEquation 18.5 26.6 ((sunEquation d622).1) =
      .ok (1 / 15 * degrees (arccos (horizonArg 18.5 26.6 ((sunEquation d622).1)))) := by
  apply horizonEquation_eq_ok
  obtain ⟨h1, h2⟩ := argF_k266_d622
  exact ⟨by linarith only [h1], by linarith only [h2]⟩

lemma hA_k266_d622_ok :
    asrEquation 1 26.6 ((sunEquation d622).1) =
      .ok (1 / 15 * degrees (arccos (asrArg 1 26.6 ((sunEquation d622).1)))) := by
  apply asrEquation_eq_ok
  obtain ⟨h1, h2⟩ := argA_k266_d622
  exact ⟨by linarith only [h1], by linarith only [h2]⟩

lemma hM_k266_d622_ok :
    horizonEquation 0.833 26.6 ((sunEquation d622).1) =
      .ok (1 / 15 * degrees (arccos (horizonArg 0.833 26.6 ((sunEquation d622).1)))) := by
  apply horizonEquation_eq_ok
  obtain ⟨h1, h2⟩ := argM_k266_d622
  exact ⟨by linarith only [h1], by linarith only [h2]⟩

lemma hF_m60_d621_ok :
    horizonEquation 18.5 (-60) ((sunEquation d621).1) =
      .ok (1 / 15 * degrees (arccos (horizonArg 18.5 (-60) ((sunEquation d621).1)))) := by
  apply horizonEquation_eq_ok
  obtain ⟨h1, h2⟩ := argF_m60_d621
  exact ⟨by linarith only [h1], by linarith only [h2]⟩

lemma hA_m60_d621_ok :
    asrEquation 1 (-60) ((sunEquation d621).1) =
      .ok (1 / 15 * degrees (arccos (asrArg 1 (-60) ((sunEquation d621).1)))) := by
  apply asrEquation_eq_ok
  obtain ⟨h1, h2⟩ := argA_m60_d621
  exact ⟨by linarith only [h1], by linarith only [h2]⟩

lemma hM_m60_d621_ok :
    horizonEquation 0.833 (-60) ((sunEquation d621).1) =
      .ok (1 / 15 * degrees (arccos (horizonArg 0.833 (-60) ((sunEquation d621).1)))) := by
  apply horizonEquation_eq_ok
  obtain ⟨h1, h2⟩ := argM_m60_d621
  exact ⟨by linarith only [h1], by linarith only [h2]⟩

lemma hF_k89_d621_err :
    horizonEquation 18.5 89 ((sunEquation d621).1) = .error .domainError := by
  apply horizonEquation_eq_error
  rintro ⟨h1, -⟩
  have h2 := argF_k89_d621_lt
  linarith only [h1, h2]

/-- Fajr duration (hours) for Khobar on 2019-06-21. -/
noncomputable def hFv621 : ℝ :=
  1 / 15 * degrees (arccos (horizonArg 18.5 26.6 ((sunEquation d621).1)))

/-- Asr duration (hours) for Khobar on 2019-06-21. -/
noncomputable def hAv621 : ℝ :=
  1 / 15 * degrees (arccos (asrArg 1 26.6 ((sunEquation d621).1)))

/-- Maghrib duration (hours) for Khobar on 2019-06-21. -/
noncomputable def hMv621 : ℝ :=
  1 / 15 * degrees (arccos (horizonArg 0.833 26.6 ((sunEquation d621).1)))

/-- Thuhr instant for Khobar on 2019-06-21. -/
noncomputable def th621 : ℝ := computeThuhr d621 50 3

/-- The table produced for Khobar (longitude 50, latitude 26.6, UTC+3) on
2019-06-21 under the `umm_alqura`/`standard` conventions. -/
noncomputable def T621 : PrayerTable :=
  ⟨th621 - hFv621 / 24, th621, th621 + hAv621 / 24, th621 + hMv621 / 24,
    th621 + hMv621 / 24 + 90 / 1440⟩

lemma T621_ok :
    computeAllPrayerTimes d621 (50, 26.6) 3 "umm_alqura" "standard" = .ok T621 := by
  have hsh : asrShadow "standard" = some 1 := by simp [asrShadow]
  exact computeAll_umm_ok hsh hF_k266_d621_ok hA_k266_d621_ok hM_k266_d621_ok

/-- Fajr duration (hours) for Khobar on 2019-06-22. -/
noncomputable def hFv622 : ℝ :=
  1 / 15 * degrees (arccos (horizonArg 18.5 26.6 ((sunEquation d622).1)))

/-- Asr duration (hours) for Khobar on 2019-06-22. -/
noncomputable def hAv622 : ℝ :=
  1 / 15 * degrees (arccos (asrArg 1 26.6 ((sunEquation d622).1)))

/-- Maghrib duration (hours) for Khobar on 2019-06-22. -/
noncomputable def hMv622 : ℝ :=
  1 / 15 * degrees (arccos (horizonArg 0.833 26.6 ((sunEquation d622).1)))

/-- Thuhr instant for Khobar on 2019-06-22. -/
noncomputable def th622 : ℝ := computeThuhr d622 50 3

/-- The table produced for Khobar on 2019-06-22. -/
noncomputable def T622 : PrayerTable :=
  ⟨th622 - hFv622 / 24, th622, th622 + hAv622 / 24, th622 + hMv622 / 24,
    th622 + hMv622 / 24 + 90 / 1440⟩

lemma T622_ok :
    computeAllPrayerTimes d622 (50, 26.6) 3 "umm_alqura" "standard" = .ok T622 := by
  have hsh : asrShadow "standard" = some 1 := by simp [asrShadow]
  exact computeAll_umm_ok hsh hF_k266_d622_ok hA_k266_d622_ok hM_k266_d622_ok

/-- Thuhr instant at longitude 50, latitude -60, on 2019-06-21. -/
noncomputable def th60 : ℝ := computeThuhr d621 50 3

/-- The table produced at (longitude 50, latitude -60, UTC+3) on 2019-06-21. -/
noncomputable def T60 : PrayerTable :=
  ⟨th60 - (1 / 15 * degrees (arccos (horizonArg 18.5 (-60) ((sunEquation d621).1)))) / 24,
    th60,
    th60 + (1 / 15 * degrees (arccos (asrArg 1 (-60) ((sunEquation d621).1)))) / 24,
    th60 + (1 / 15 * degrees (arccos (horizonArg 0.833 (-60) ((sunEquation d621).1)))) / 24,
    th60 + (1 / 15 * degrees (arccos (horizonArg 0.833 (-60) ((sunEquation d621).1)))) / 24 +
      90 / 1440⟩

lemma T60_ok :
    computeAllPrayerTimes d621 (50, -60) 3 "umm_alqura" "standard" = .ok T60 := by
  have hsh : asrShadow "standard" = some 1 := by simp [asrShadow]
  exact computeAll_umm_ok hsh hF_m60_d621_ok hA_m60_d621_ok hM_m60_d621_ok

end ConcreteTables

section ConventionIsha

/-- Only the `umm_alqura` key maps to the fixed-offset isha marker. -/
lemma fajrIshaAngle_minutes90 {fic : String} {fAng : ℝ}
    (h : fajrIshaAngle fic = some (fAng, IshaParam.minutes90)) :
    fic = "umm_alqura" := by
  unfold fajrIshaAngle at h
  split_ifs at h with h1 h2 h3 h4
  all_goals first
    | assumption
    | simp at h

end ConventionIsha

/-- C1, counterexample: on 2019-06-21 at longitude 50, latitude -60 (within
the claimed ±60° band) with the `umm_alqura` and `standard` conventions,
`computeAllPrayerTimes` succeeds but returns a table whose maghrib entry is
strictly earlier than its asr entry, so the five timestamps are not strictly
increasing in the fixed key order. -/
theorem claim_C1_counterexample :
    resultSatisfies (fun t => t.maghrib < t.asr ∧ ¬tableIncreasing t)
      (computeAllPrayerTimes d621 (50, -60) 3 "umm_alqura" "standard") := by
  rw [T60_ok]
  dsimp only [resultSatisfies]
  have hA := argA_m60_d621
  have hM := argM_m60_d621
  have harc : arccos (horizonArg 0.833 (-60) ((sunEquation d621).1)) <
      arccos (asrArg 1 (-60) ((sunEquation d621).1)) := by
    apply strictAntiOn_arccos
    · exact ⟨by linarith only [hA.1], by linarith only [hA.2]⟩
    · exact ⟨by linarith only [hM.1], by linarith only [hM.2]⟩
    · linarith only [hA.2, hM.1]
  have hdeg := degrees_lt_degrees harc
  have hlt : T60.maghrib < T60.asr := by
    show th60 + (1 / 15 * degrees (arccos (horizonArg 0.833 (-60) ((sunEquation d621).1)))) / 24 <
      th60 + (1 / 15 * degrees (arccos (asrArg 1 (-60) ((sunEquation d621).1)))) / 24
    linarith only [hdeg]
  exact ⟨hlt, fun hinc => absurd hinc.2.2.1 (not_lt.mpr (le_of_lt hlt))⟩

/-- C1 (amended): for every valid date and latitude in `[0, 60]` degrees, if
`computeAllPrayerTimes` succeeds then the five timestamps of the returned
table are strictly increasing in the fixed key order
fajr < thuhr < asr < maghrib < isha.  (At negative latitudes the guarantee
fails even when the computation succeeds, because the asr equation's
`acot`-via-`atan` reciprocal mishandles the negative cotangent there.) -/
theorem claim_C1_amended {date : DateTime} {LON lat tz : ℝ} {fic ac : String}
    {t : PrayerTable} (hv : date.Valid) (h0 : 0 ≤ lat) (h60 : lat ≤ 60)
    (h : computeAllPrayerTimes date (LON, lat) tz fic ac = .ok t) :
    tableIncreasing t :=
  tableIncreasing_of_ok hv h0 h60 h

theorem claim_C1_amended_witness :
    d621.Valid ∧ (0:ℝ) ≤ 26.6 ∧ (26.6:ℝ) ≤ 60 ∧ tableIncreasing T621 :=
  ⟨d621_valid, by norm_num, by norm_num,
    claim_C1_amended d621_valid (by norm_num) (by norm_num) T621_ok⟩

/-- C3: whenever `computeAllPrayerTimes` succeeds, the isha entry equals
maghrib plus exactly 90 minutes precisely under the `umm_alqura` convention;
under every other recognized convention it equals thuhr plus the
horizon-equation duration for that convention's isha angle. -/
theorem claim_C3 {date : DateTime} {LON LAT tz : ℝ} {fic ac : String}
    {t : PrayerTable}
    (h : computeAllPrayerTimes date (LON, LAT) tz fic ac = .ok t) :
    (fic = "umm_alqura" → t.isha = t.maghrib + 90 / 1440) ∧
    (fic ≠ "umm_alqura" →
      ∃ fAng aI hI, fajrIshaAngle fic = some (fAng, IshaParam.angle aI) ∧
        horizonEquation aI LAT ((sunEquation date).1) = .ok hI ∧
        t.isha = t.thuhr + hI / 24) := by
  obtain ⟨fAng, iAng, sha, hF, hA, hM, hfa, hsh, hFeq, hAeq, hMeq, hth, hfajr,
    hasr, hmag, hisha⟩ := computeAll_ok_elim h
  constructor
  · intro hfic
    subst hfic
    have hul : fajrIshaAngle "umm_alqura" = some (18.5, IshaParam.minutes90) := by
      simp [fajrIshaAngle]
    rw [hul] at hfa
    have hpair := Option.some.inj hfa
    have hiAng : IshaParam.minutes90 = iAng := congrArg Prod.snd hpair
    rcases hisha with ⟨-, hiv⟩ | ⟨aI, hI, hiEq, -, -⟩
    · exact hiv
    · rw [hiEq] at hiAng
      cases hiAng
  · intro hne
    rcases hisha with ⟨hmin, -⟩ | ⟨aI, hI, hiEq, hIeq, hIv⟩
    · exact absurd (fajrIshaAngle_minutes90 (hmin ▸ hfa)) hne
    · exact ⟨fAng, aI, hI, hiEq ▸ hfa, hIeq, hIv⟩

theorem claim_C3_witness :
    ("umm_alqura" = "umm_alqura" → T621.isha = T621.maghrib + 90 / 1440) ∧
    ("umm_alqura" ≠ "umm_alqura" →
      ∃ fAng aI hI, fajrIshaAngle "umm_alqura" = some (fAng, IshaParam.angle aI) ∧
        horizonEquation aI 26.6 ((sunEquation d621).1) = .ok hI ∧
        T621.isha = T621.thuhr + hI / 24) :=
  claim_C3 T621_ok

/-- C7, counterexample: the solar-position computation does not ignore the
time-of-day component of its argument.  On 2019-03-20 the declination
computed at 23:59:59 has the opposite sign of the one computed at midnight of
the same calendar date, so the two results differ. -/
theorem claim_C7_counterexample :
    sunEquation d320v ≠ sunEquation (dateAtMidnight d320v) := by
  have hmid : dateAtMidnight d320v = d320 := rfl
  rw [hmid]
  intro h
  have h1 : (sunEquation d320v).1 = (sunEquation d320).1 := by rw [h]
  have h2 := decl_pos_d320v
  have h3 := decl_neg_d320
  rw [h1] at h2
  linarith only [h2, h3]

/-- C4 (amended and spec-modelled): provided both the current day's and the
next day's tables are computed successfully, both are strictly increasing,
the current day's isha precedes the next day's fajr, and `now` precedes the
next day's fajr, `nextFivePrayers` returns exactly five (name, timestamp)
entries, each strictly later than `now`, in chronological order, formed by
the entries of today's table strictly after `now` followed by the earliest
entries of tomorrow's table needed to reach five; with `now` before today's
fajr all five come from today, and with `now` equal to today's isha all five
come from tomorrow.  (Without the success hypotheses the claim fails: at
extreme latitudes the computation aborts with a domain error.) -/
theorem claim_C4_amended {coordinates : ℝ × ℝ} {tz : ℝ} {fic ac : String}
    (now : DateTime) {t t2 : PrayerTable}
    (h1 : computeAllPrayerTimes (dateAtMidnight now) coordinates tz fic ac = .ok t)
    (h2 : computeAllPrayerTimes (nextDay (dateAtMidnight now)) coordinates tz
      fic ac = .ok t2)
    (hinc1 : tableIncreasing t) (hinc2 : tableIncreasing t2)
    (hcross : t.isha < t2.fajr) (hnow2 : instant now < t2.fajr) :
    ∃ l, nextFivePrayers coordinates tz fic ac now = .ok l ∧
      l.length = 5 ∧
      l.Chain' (fun p q => p.2 < q.2) ∧
      (∀ p ∈ l, instant now < p.2) ∧
      l = t.toList.filter (fun p => instant now < p.2) ++
        t2.toList.take (5 - (t.toList.filter (fun p => instant now < p.2)).length) ∧
      (instant now < t.fajr → l = t.toList) ∧
      (instant now = t.isha → l = t2.toList) := by
  obtain ⟨hft, hta, ham, hmi⟩ := hinc1
  obtain ⟨hft2, hta2, ham2, hmi2⟩ := hinc2
  have hrun : nextFivePrayers coordinates tz fic ac now =
      .ok (t.toList.drop
          (5 - (t.toList.filter (fun p => instant now < p.2)).length) ++
        t2.toList.take
          (5 - (t.toList.filter (fun p => instant now < p.2)).length)) := by
    unfold nextFivePrayers
    dsimp only
    rw [h1]
    dsimp only
    rw [h2]
  rcases lt_or_le (instant now) t.fajr with c1 | c1
  · -- now before fajr: all five of today remain
    have e1 : decide (instant now < t.fajr) = true := decide_eq_true c1
    have e2 : decide (instant now < t.thuhr) = true :=
      decide_eq_true (by linarith only [c1, hft])
    have e3 : decide (instant now < t.asr) = true :=
      decide_eq_true (by linarith only [c1, hft, hta])
    have e4 : decide (instant now < t.maghrib) = true :=
      decide_eq_true (by linarith only [c1, hft, hta, ham])
    have e5 : decide (instant now < t.isha) = true :=
      decide_eq_true (by linarith only [c1, hft, hta, ham, hmi])
    have hfil : t.toList.filter (fun p => instant now < p.2) = t.toList := by
      simp [PrayerTable.toList, List.filter, e1, e2, e3, e4, e5]
    refine ⟨t.toList, ?_, rfl, ?_, ?_, ?_, fun _ => rfl, ?_⟩
    · rw [hrun, hfil]
      rfl
    · simp only [PrayerTable.toList, List.chain'_cons]
      exact ⟨hft, hta, ham, hmi, List.chain'_singleton _⟩
    · intro p hp
      simp only [PrayerTable.toList, List.mem_cons, List.not_mem_nil,
        or_false] at hp
      rcases hp with rfl | rfl | rfl | rfl | rfl <;> dsimp only <;>
        linarith only [c1, hft, hta, ham, hmi]
    · rw [hfil]
      rfl
    · intro hx
      exfalso
      linarith only [hx, c1, hft, hta, ham, hmi]
  rcases lt_or_le (instant now) t.thuhr with c2 | c2
  · -- fajr passed, thuhr still ahead
    have e1 : decide (instant now < t.fajr) = false :=
      decide_eq_false (not_lt.mpr c1)
    have e2 : decide (instant now < t.thuhr) = true := decide_eq_true c2
    have e3 : decide (instant now < t.asr) = true :=
      decide_eq_true (by linarith only [c2, hta])
    have e4 : decide (instant now < t.maghrib) = true :=
      decide_eq_true (by linarith only [c2, hta, ham])
    have e5 : decide (instant now < t.isha) = true :=
      decide_eq_true (by linarith only [c2, hta, ham, hmi])
    have hfil : t.toList.filter (fun p => instant now < p.2) =
        [("thuhr", t.thuhr), ("asr", t.asr), ("maghrib", t.maghrib),
          ("isha", t.isha)] := by
      simp [PrayerTable.toList, List.filter, e1, e2, e3, e4, e5]
    refine ⟨[("thuhr", t.thuhr), ("asr", t.asr), ("maghrib", t.maghrib),
      ("isha", t.isha), ("fajr", t2.fajr)], ?_, rfl, ?_, ?_, ?_, ?_, ?_⟩
    · rw [hrun, hfil]
      rfl
    · simp only [List.chain'_cons]
      exact ⟨hta, ham, hmi, hcross, List.chain'_singleton _⟩
    · intro p hp
      simp only [List.mem_cons, List.not_mem_nil, or_false] at hp
      rcases hp with rfl | rfl | rfl | rfl | rfl <;> dsimp only <;>
        linarith only [c2, hta, ham, hmi, hnow2]
    · rw [hfil]
      rfl
    · intro hx
      exact absurd hx (not_lt.mpr c1)
    · intro hx
      exfalso
      linarith only [hx, c2, hta, ham, hmi]
  rcases lt_or_le (instant now) t.asr with c3 | c3
  · -- thuhr passed, asr still ahead
    have e1 : decide (instant now < t.fajr) = false :=
      decide_eq_false (not_lt.mpr c1)
    have e2 : decide (instant now < t.thuhr) = false :=
      decide_eq_false (not_lt.mpr c2)
    have e3 : decide (instant now < t.asr) = true := decide_eq_true c3
    have e4 : decide (instant now < t.maghrib) = true :=
      decide_eq_true (by linarith only [c3, ham])
    have e5 : decide (instant now < t.isha) = true :=
      decide_eq_true (by linarith only [c3, ham, hmi])
    have hfil : t.toList.filter (fun p => instant now < p.2) =
        [("asr", t.asr), ("maghrib", t.maghrib), ("isha", t.isha)] := by
      simp [PrayerTable.toList, List.filter, e1, e2, e3, e4, e5]
    refine ⟨[("asr", t.asr), ("maghrib", t.maghrib), ("isha", t.isha),
      ("fajr", t2.fajr), ("thuhr", t2.thuhr)], ?_, rfl, ?_, ?_, ?_, ?_, ?_⟩
    · rw [hrun, hfil]
      rfl
    · simp only [List.chain'_cons]
      exact ⟨ham, hmi, hcross, hft2, List.chain'_singleton _⟩
    · intro p hp
      simp only [List.mem_cons, List.not_mem_nil, or_false] at hp
      rcases hp with rfl | rfl | rfl | rfl | rfl <;> dsimp only <;>
        linarith only [c3, ham, hmi, hnow2, hft2]
    · rw [hfil]
      rfl
    · intro hx
      exact absurd hx (not_lt.mpr c1)
    · intro hx
      exfalso
      linarith only [hx, c3, ham, hmi]
  rcases lt_or_le (instant now) t.maghrib with c4 | c4
  · -- asr passed, maghrib still ahead
    have e1 : decide (instant now < t.fajr) = false :=
      decide_eq_false (not_lt.mpr c1)
    have e2 : decide (instant now < t.thuhr) = false :=
      decide_eq_false (not_lt.mpr c2)
    have e3 : decide (instant now < t.asr) = false :=
      decide_eq_false (not_lt.mpr c3)
    have e4 : decide (instant now < t.maghrib) = true := decide_eq_true c4
    have e5 : decide (instant now < t.isha) = true :=
      decide_eq_true (by linarith only [c4, hmi])
    have hfil : t.toList.filter (fun p => instant now < p.2) =
        [("maghrib", t.maghrib), ("isha", t.isha)] := by
      simp [PrayerTable.toList, List.filter, e1, e2, e3, e4, e5]
    refine ⟨[("maghrib", t.maghrib), ("isha", t.isha), ("fajr", t2.fajr),
      ("thuhr", t2.thuhr), ("asr", t2.asr)], ?_, rfl, ?_, ?_, ?_, ?_, ?_⟩
    · rw [hrun, hfil]
      rfl
    · simp only [List.chain'_cons]
      exact ⟨hmi, hcross, hft2, hta2, List.chain'_singleton _⟩
    · intro p hp
      simp only [List.mem_cons, List.not_mem_nil, or_false] at hp
      rcases hp with rfl | rfl | rfl | rfl | rfl <;> dsimp only <;>
        linarith only [c4, hmi, hnow2, hft2, hta2]
    · rw [hfil]
      rfl
    · intro hx
      exact absurd hx (not_lt.mpr c1)
    · intro hx
      exfalso
      linarith only [hx, c4, hmi]
  rcases lt_or_le (instant now) t.isha with c5 | c5
  · -- maghrib passed, isha still ahead
    have e1 : decide (instant now < t.fajr) = false :=
      decide_eq_false (not_lt.mpr c1)
    have e2 : decide (instant now < t.thuhr) = false :=
      decide_eq_false (not_lt.mpr c2)
    have e3 : decide (instant now < t.asr) = false :=
      decide_eq_false (not_lt.mpr c3)
    have e4 : decide (instant now < t.maghrib) = false :=
      decide_eq_false (not_lt.mpr c4)
    have e5 : decide (instant now < t.isha) = true := decide_eq_true c5
    have hfil : t.toList.filter (fun p => instant now < p.2) =
        [("isha", t.isha)] := by
      simp [PrayerTable.toList, List.filter, e1, e2, e3, e4, e5]
    refine ⟨[("isha", t.isha), ("fajr", t2.fajr), ("thuhr", t2.thuhr),
      ("asr", t2.asr), ("maghrib", t2.maghrib)], ?_, rfl, ?_, ?_, ?_, ?_, ?_⟩
    · rw [hrun, hfil]
      rfl
    · simp only [List.chain'_cons]
      exact ⟨hcross, hft2, hta2, ham2, List.chain'_singleton _⟩
    · intro p hp
      simp only [List.mem_cons, List.not_mem_nil, or_false] at hp
      rcases hp with rfl | rfl | rfl | rfl | rfl <;> dsimp only <;>
        linarith only [c5, hnow2, hft2, hta2, ham2]
    · rw [hfil]
      rfl
    · intro hx
      exact absurd hx (not_lt.mpr c1)
    · intro hx
      exfalso
      rw [hx] at c5
      exact absurd c5 (lt_irrefl _)
  · -- the whole day has passed: all five from tomorrow
    have e1 : decide (instant now < t.fajr) = false :=
      decide_eq_false (not_lt.mpr c1)
    have e2 : decide (instant now < t.thuhr) = false :=
      decide_eq_false (not_lt.mpr c2)
    have e3 : decide (instant now < t.asr) = false :=
      decide_eq_false (not_lt.mpr c3)
    have e4 : decide (instant now < t.maghrib) = false :=
      decide_eq_false (not_lt.mpr c4)
    have e5 : decide (instant now < t.isha) = false :=
      decide_eq_false (not_lt.mpr c5)
    have hfil : t.toList.filter (fun p => instant now < p.2) = [] := by
      simp [PrayerTable.toList, List.filter, e1, e2, e3, e4, e5]
    refine ⟨t2.toList, ?_, rfl, ?_, ?_, ?_, ?_, fun _ => rfl⟩
    · rw [hrun, hfil]
      rfl
    · simp only [PrayerTable.toList, List.chain'_cons]
      exact ⟨hft2, hta2, ham2, hmi2, List.chain'_singleton _⟩
    · intro p hp
      simp only [PrayerTable.toList, List.mem_cons, List.not_mem_nil,
        or_false] at hp
      rcases hp with rfl | rfl | rfl | rfl | rfl <;> dsimp only <;>
        linarith only [hnow2, hft2, hta2, ham2, hmi2]
    · rw [hfil]
      rfl
    · intro hx
      exfalso
      linarith only [hx, c5, hft, hta, ham, hmi]

/-- C4, counterexample: at longitude 50, latitude 89 (with recognized
conventions and a valid instant), `nextFivePrayers` does not return five
future prayer entries: the fajr horizon equation hits an `acos` domain error
and the whole call fails. -/
theorem claim_C4_counterexample :
    nextFivePrayers (50, 89) 3 "umm_alqura" "standard" d621 =
      .error PrayerError.domainError := by
  have hfa : fajrIshaAngle "umm_alqura" = some (18.5, IshaParam.minutes90) := by
    simp [fajrIshaAngle]
  have hsh : asrShadow "standard" = some 1 := by
    simp [asrShadow]
  have herr : computeAllPrayerTimes d621 (50, 89) 3 "umm_alqura" "standard" =
      .error .domainError :=
    computeAll_fajr_error hfa hsh hF_k89_d621_err
  unfold nextFivePrayers
  dsimp only
  have hmid : dateAtMidnight d621 = d621 := rfl
  rw [hmid, herr]

section CrossDayBounds

lemma hM621_cap : hMv621 ≤ 2163513 / 312500 := by
  unfold hMv621
  have h1 : arccos (horizonArg 0.833 26.6 ((sunEquation d621).1)) ≤ 1.8125 := by
    apply my_arccos_le (by norm_num) (by linarith only [pi_lb])
    have hc := cos_18125_ub
    have ha := argM_k266_d621.1
    linarith only [hc, ha]
  have h2 := arccos_nonneg (horizonArg 0.833 26.6 ((sunEquation d621).1))
  unfold degrees
  have h3 : (1:ℝ) / 15 *
      (arccos (horizonArg 0.833 26.6 ((sunEquation d621).1)) * 180 / π) =
      arccos (horizonArg 0.833 26.6 ((sunEquation d621).1)) * 12 / π := by
    ring
  rw [h3, div_le_iff₀ pi_pos]
  linarith only [h1, h2, pi_lb]

lemma hF621_cap : hFv621 ≤ 86325661 / 10000000 := by
  unfold hFv621
  have h1 : arccos (horizonArg 18.5 26.6 ((sunEquation d621).1)) ≤ 2.26 := by
    apply my_arccos_le (by norm_num) (by linarith only [pi_lb])
    have hc := cos_226_ub
    have ha := argF_k266_d621.1
    linarith only [hc, ha]
  have h2 := arccos_nonneg (horizonArg 18.5 26.6 ((sunEquation d621).1))
  unfold degrees
  have h3 : (1:ℝ) / 15 *
      (arccos (horizonArg 18.5 26.6 ((sunEquation d621).1)) * 180 / π) =
      arccos (horizonArg 18.5 26.6 ((sunEquation d621).1)) * 12 / π := by
    ring
  rw [h3, div_le_iff₀ pi_pos]
  linarith only [h1, h2, pi_lb]

lemma hF622_cap : hFv622 ≤ 86325661 / 10000000 := by
  unfold hFv622
  have h1 : arccos (horizonArg 18.5 26.6 ((sunEquation d622).1)) ≤ 2.26 := by
    apply my_arccos_le (by norm_num) (by linarith only [pi_lb])
    have hc := cos_226_ub
    have ha := argF_k266_d622.1
    linarith only [hc, ha]
  have h2 := arccos_nonneg (horizonArg 18.5 26.6 ((sunEquation d622).1))
  unfold degrees
  have h3 : (1:ℝ) / 15 *
      (arccos (horizonArg 18.5 26.6 ((sunEquation d622).1)) * 180 / π) =
      arccos (horizonArg 18.5 26.6 ((sunEquation d622).1)) * 12 / π := by
    ring
  rw [h3, div_le_iff₀ pi_pos]
  linarith only [h1, h2, pi_lb]

lemma T621_isha_lt_T622_fajr : T621.isha < T622.fajr := by
  have he621 := eot_bounds_d621
  have he622 := eot_bounds_d622
  have h1 := hM621_cap
  have h2 := hF622_cap
  show th621 + hMv621 / 24 + 90 / 1440 < th622 - hFv622 / 24
  unfold th621 th622 computeThuhr
  rw [instant_d621, instant_d622]
  linarith only [he621.1, he621.2, he622.1, he622.2, h1, h2]

lemma instant_d621_lt_T622_fajr : instant d621 < T622.fajr := by
  have he622 := eot_bounds_d622
  have h2 := hF622_cap
  show instant d621 < th622 - hFv622 / 24
  unfold th622 computeThuhr
  rw [instant_d621, instant_d622]
  linarith only [he622.2, h2]

end CrossDayBounds

theorem claim_C4_amended_witness :
    ∃ l, nextFivePrayers (50, 26.6) 3 "umm_alqura" "standard" d621 = .ok l ∧
      l.length = 5 ∧
      l.Chain' (fun p q => p.2 < q.2) ∧
      (∀ p ∈ l, instant d621 < p.2) ∧
      l = T621.toList.filter (fun p => instant d621 < p.2) ++
        T622.toList.take
          (5 - (T621.toList.filter (fun p => instant d621 < p.2)).length) ∧
      (instant d621 < T621.fajr → l = T621.toList) ∧
      (instant d621 = T621.isha → l = T622.toList) := by
  have hinc1 : tableIncreasing T621 :=
    tableIncreasing_of_ok d621_valid (by norm_num) (by norm_num) T621_ok
  have hinc2 : tableIncreasing T622 :=
    tableIncreasing_of_ok d622_valid (by norm_num) (by norm_num) T622_ok
  exact claim_C4_amended d621 T621_ok T622_ok hinc1 hinc2
    T621_isha_lt_T622_fajr instant_d621_lt_T622_fajr

theorem claim_C10_witness :
    ∃ hH hA t,
      horizonEquation 0 0 0 = .ok hH ∧
      asrEquation 1 0 0 = .ok hA ∧
      computeAllPrayerTimes d621 (50, 26.6) 3 "umm_alqura" "standard" = .ok t ∧
      (((0 ≤ hH ∧ hH ≤ 12) ∧ (0 ≤ hA ∧ hA ≤ 12)) ∧
        (t.fajr ≤ t.thuhr ∧ t.thuhr ≤ t.asr ∧ t.thuhr ≤ t.maghrib ∧
          t.thuhr ≤ t.isha)) := by
  have hH0 : horizonEquation 0 0 0 =
      .ok (1 / 15 * degrees (arccos (horizonArg 0 0 0))) := by
    apply horizonEquation_eq_ok
    have h0 : horizonArg 0 0 0 = 0 := by
      unfold horizonArg radians
      norm_num
    rw [h0]
    norm_num
  have hA0 : asrEquation 1 0 0 =
      .ok (1 / 15 * degrees (arccos (asrArg 1 0 0))) := by
    apply asrEquation_eq_ok
    have h0 : asrArg 1 0 0 = √2 / 2 := by
      unfold asrArg radians
      norm_num [tan_zero, arctan_one, sin_pi_div_four, sin_zero, cos_zero]
    have hsq := Real.sq_sqrt (by norm_num : (0:ℝ) ≤ 2)
    have hnn := Real.sqrt_nonneg 2
    rw [h0]
    constructor
    · nlinarith only [hnn]
    · nlinarith only [hsq, hnn]
  exact ⟨_, _, T621, hH0, hA0, T621_ok,
    claim_C10 0 0 0 1 0 0 d621 50 26.6 3 "umm_alqura" "standard" T621 _ _
      hH0 hA0 T621_ok⟩

end AroundTheClock
